import Mathlib

/-! # BrandModel: like/match engine and offline action queue

A shallow embedding of the consistency-relevant code of the application:

* `src/screens/SwipeScreen.js`: `handleSwipe`, `handleLike`, `createMatch`;
* `src/services/OfflineService.js`: `saveOfflineAction`, `syncPendingActions`,
  `executeAction`.

The remote document store (Firestore) is an explicit state `Remote`; every remote
operation takes a boolean saying whether the request reaches the server, so that
the behaviour under failing writes can be stated.  Local storage (AsyncStorage) is
the value kept under the key `pending_actions`, classified by what `JSON.parse`
makes of it.  Writes to the telemetry collections `analytics` and `error_logs`
(`AnalyticsService.trackEvent`, `ErrorService.logError`) never throw and touch no
document modelled here, so they are left out.
-/

namespace BrandModel

/-! ## Remote store -/

/-- Identifier of a user document (`user.uid`, `profile.id`). -/
abbrev UserId := Nat

/-- Identifier the store generates for a document created with `add`. -/
abbrev DocId := Nat

/-- Fields of a document of the `users` collection that the code reads or writes.
`none` is a field that is absent (JavaScript `undefined`). -/
structure UserData where
  userType : Option String := none
  isVerified : Option Bool := none
  profileComplete : Option Bool := none
  isActive : Option Bool := none
  swipedProfiles : Option (List UserId) := none
  likedProfiles : Option (List UserId) := none
  /-- The array field `matches` (a reserved word here): ids of the user's matches. -/
  matchIds : Option (List DocId) := none
  blockedUsers : Option (List UserId) := none
deriving DecidableEq, Repr

/-- Data of a document of the `matches` collection (the array field `messages: []`
written by `createMatch` is never read and is left out). -/
structure MatchData where
  users : List UserId
  createdAt : Option Nat := none
  expiresAt : Nat
  isActive : Bool
  lastMessage : Option String := none
  lastMessageAt : Option Nat := none
  blockedAt : Option Nat := none
deriving DecidableEq, Repr

/-- A document of the `matches` collection. -/
structure MatchDoc where
  id : DocId
  data : MatchData
deriving DecidableEq, Repr

/-- Data of a chat message. -/
structure MessageData where
  text : String
  user : UserId
  createdAt : Option Nat := none
deriving DecidableEq, Repr

/-- A document of a subcollection `matches/{matchId}/messages`. -/
structure MessageDoc where
  matchId : DocId
  id : DocId
  data : MessageData
deriving DecidableEq, Repr

/-- Data of a document of the `reports` collection. -/
structure ReportData where
  reporterId : UserId
  reportedUserId : UserId
  reason : String
  customReason : String := ""
deriving DecidableEq, Repr

/-- A document of the `reports` collection. -/
structure ReportDoc where
  id : DocId
  data : ReportData
deriving DecidableEq, Repr

/-- State of the remote store.  Collections created with `add` are kept in creation
order; `nextId` is the next automatically generated document id. -/
structure Remote where
  users : List (UserId × UserData) := []
  /-- The collection `matches` (a reserved word here). -/
  matchDocs : List MatchDoc := []
  messages : List MessageDoc := []
  reports : List ReportDoc := []
  nextId : DocId := 0
deriving DecidableEq, Repr

/-- Why a remote operation rejected or a statement threw. -/
inductive JsError where
  | unavailable
  | notFound
  | invalidArgument
  | typeError
  | syntaxError
  | storage
  | rangeError
deriving DecidableEq, Repr

/-- Data of `users/{uid}` as returned by `doc(uid).get().data()`: `none` when the
document does not exist. -/
def Remote.getUser (r : Remote) (uid : UserId) : Option UserData :=
  r.users.lookup uid

/-- Apply `f` to the data of every entry stored under `uid`. -/
def modifyUser (uid : UserId) (f : UserData → UserData) (us : List (UserId × UserData)) :
    List (UserId × UserData) :=
  us.map fun e => if e.1 = uid then (e.1, f e.2) else e

/-- Firestore `collection('users').doc(uid).update(...)`: rejects when the request
does not reach the server or the document does not exist, and changes nothing then. -/
def updateUser (ok : Bool) (uid : UserId) (f : UserData → UserData) (r : Remote) :
    Except JsError Remote :=
  if ok then
    match r.getUser uid with
    | none => .error .notFound
    | some _ => .ok { r with users := modifyUser uid f r.users }
  else .error .unavailable

/-- Firestore `collection('users').doc(uid).get()` followed by `.data()`. -/
def readUser (ok : Bool) (uid : UserId) (r : Remote) : Except JsError (Option UserData) :=
  if ok then .ok (r.getUser uid) else .error .unavailable

/-- `FieldValue.arrayUnion(x)` applied to an array field: `x` is appended unless it
is already there; an absent field becomes `[x]`. -/
def arrayUnion {α : Type} [DecidableEq α] (x : α) : Option (List α) → Option (List α)
  | none => some [x]
  | some l => if x ∈ l then some l else some (l ++ [x])

/-- Firestore `collection('matches').add(data)`: a new document with a generated id. -/
def addMatch (ok : Bool) (d : MatchData) (r : Remote) : Except JsError (DocId × Remote) :=
  if ok then
    .ok (r.nextId, { r with matchDocs := r.matchDocs ++ [⟨r.nextId, d⟩], nextId := r.nextId + 1 })
  else .error .unavailable

/-! ## `SwipeScreen.js` -/

/-- Which of the remote requests issued by one swipe reach the server. -/
structure SwipeNet where
  swiped : Bool := true
  read : Bool := true
  like : Bool := true
  add : Bool := true
  actorMatches : Bool := true
  targetMatches : Bool := true
deriving DecidableEq, Repr

/-- Every request of the swipe succeeds. -/
def SwipeNet.allOk : SwipeNet := {}

/-- Entry of the `profiles` list of the screen. -/
structure Profile where
  id : UserId
deriving DecidableEq, Repr

/-- The two values `handleSwipe` is called with. -/
inductive Direction where
  | left
  | right
deriving DecidableEq, Repr

/-- Duration of a match in milliseconds, `24 * 60 * 60 * 1000`. -/
def matchTTL : Nat := 24 * 60 * 60 * 1000

/-- The update `{matches: FieldValue.arrayUnion(matchRef.id)}` of a user document. -/
def addMatchId (mid : DocId) (u : UserData) : UserData :=
  { u with matchIds := arrayUnion mid u.matchIds }

/-- `createMatch(profile)`: add the match document, then update both users' `matches`
with `Promise.all` (both updates are issued; each applies on its own); every error
is caught and logged. `now` is `Date.now()`, `serverNow` the server timestamp. -/
def createMatch (net : SwipeNet) (now serverNow : Nat) (uid : UserId) (profile : Profile)
    (r : Remote) : Remote :=
  let matchData : MatchData :=
    { users := [uid, profile.id], createdAt := some serverNow,
      expiresAt := now + matchTTL, isActive := true }
  match addMatch net.add matchData r with
  | .error _ => r
  | .ok (matchId, r1) =>
    let r2 :=
      match updateUser net.actorMatches uid (addMatchId matchId) r1 with
      | .ok r2 => r2
      | .error _ => r1
    match updateUser net.targetMatches profile.id (addMatchId matchId) r2 with
    | .ok r3 => r3
    | .error _ => r2

/-- The test `otherUserData.likedProfiles?.includes(user.uid)`. -/
def likedIncludes (otherUserData : UserData) (uid : UserId) : Bool :=
  match otherUserData.likedProfiles with
  | none => false
  | some l => decide (uid ∈ l)

/-- `handleLike(profile)`: read the other user's document; if its `likedProfiles`
includes `user.uid` create the match, otherwise add `user.uid` to the other user's
`likedProfiles`; every error is caught (reading a field of `undefined` when the
document does not exist is a `TypeError`). -/
def handleLike (net : SwipeNet) (now serverNow : Nat) (uid : UserId) (profile : Profile)
    (r : Remote) : Remote :=
  match readUser net.read profile.id r with
  | .error _ => r
  | .ok none => r
  | .ok (some otherUserData) =>
    if likedIncludes otherUserData uid then
      createMatch net now serverNow uid profile r
    else
      match updateUser net.like profile.id
          (fun u => { u with likedProfiles := arrayUnion uid u.likedProfiles }) r with
      | .ok r1 => r1
      | .error _ => r

/-- Body of the animation callback of `handleSwipe`: record the swipe on the acting
user, and on a right swipe run `handleLike`; a failing first update skips the like. -/
def swipe (net : SwipeNet) (now serverNow : Nat) (uid : UserId) (currentProfile : Profile)
    (direction : Direction) (r : Remote) : Remote :=
  match updateUser net.swiped uid
      (fun u => { u with swipedProfiles := arrayUnion currentProfile.id u.swipedProfiles }) r with
  | .error _ => r
  | .ok r1 =>
    match direction with
    | .right => handleLike net now serverNow uid currentProfile r1
    | .left => r1

/-- State of the swipe screen: the signed-in user, the loaded profiles and the index
of the card on top. -/
structure SwipeScreen where
  uid : UserId
  profiles : List Profile
  currentIndex : Nat
deriving DecidableEq, Repr

/-- `handleSwipe(direction)`: nothing when the deck is exhausted; otherwise the
callback runs on the current profile and the index advances. -/
def handleSwipe (net : SwipeNet) (now serverNow : Nat) (direction : Direction)
    (s : SwipeScreen) (r : Remote) : SwipeScreen × Remote :=
  match s.profiles.get? s.currentIndex with
  | none => (s, r)
  | some currentProfile =>
    ({ s with currentIndex := s.currentIndex + 1 },
      swipe net now serverNow s.uid currentProfile direction r)

/-- Match documents of `r` that are active and whose users are `a` and `b`, in either
order. -/
def activePair (a b : UserId) (r : Remote) : List MatchDoc :=
  r.matchDocs.filter fun m =>
    m.data.isActive && (decide (m.data.users = [a, b]) || decide (m.data.users = [b, a]))

/-- The `matches` array of user `uid` (empty when the document or field is absent). -/
def Remote.matchesOf (r : Remote) (uid : UserId) : List DocId :=
  match r.getUser uid with
  | some u => u.matchIds.getD []
  | none => []

/-- The `likedProfiles` array of user `uid` (empty when absent). -/
def Remote.likedOf (r : Remote) (uid : UserId) : List UserId :=
  match r.getUser uid with
  | some u => u.likedProfiles.getD []
  | none => []

/-- State after the first write of a swipe has succeeded: the target's id is in the
actor's `swipedProfiles`. -/
def recordSwiped (uid target : UserId) (r : Remote) : Remote :=
  { r with
    users := (modifyUser uid
      (fun u => { u with swipedProfiles := arrayUnion target u.swipedProfiles }) r.users) }

/-- The document `createMatch` adds for actor `uid` and profile `target` in state `r`. -/
def newMatch (now serverNow : Nat) (uid target : UserId) (r : Remote) : MatchDoc :=
  ⟨r.nextId, { users := [uid, target], createdAt := some serverNow,
               expiresAt := now + matchTTL, isActive := true }⟩

/-- One call of `handleSwipe('right')`: the screen it is called on, the clocks and the
fate of its requests. -/
structure SwipeEvent where
  net : SwipeNet
  now : Nat
  serverNow : Nat
  screen : SwipeScreen
deriving DecidableEq, Repr

/-- Right swipes applied one after another to the remote state. -/
def runSwipes (evs : List SwipeEvent) (r : Remote) : Remote :=
  evs.foldl (fun r e => (handleSwipe e.net e.now e.serverNow .right e.screen r).2) r

/-! ## `OfflineService.js` -/

/-- The values of `action.type` that `executeAction` distinguishes. -/
inductive ActionType where
  | update_profile
  | send_message
  | create_match
  | report_user
  | other (name : String)
deriving DecidableEq, Repr

/-- A pending action: the fields of the stored object that the code reads or writes
(`none`: the field is absent). -/
structure Action where
  type : Option ActionType := none
  userId : Option UserId := none
  data : Option UserData := none
  matchId : Option DocId := none
  messageData : Option MessageData := none
  matchData : Option MatchData := none
  reportData : Option ReportData := none
  collection : Option String := none
  docId : Option Nat := none
  timestamp : Option Nat := none
deriving DecidableEq, Repr

/-- An element of a stored JSON array: `null`, a value that is not an object (number,
string, boolean, array), or an object. -/
inductive Entry where
  | null
  | nonObject
  | action (a : Action)
deriving DecidableEq, Repr

/-- The string kept under `pending_actions`, by what `JSON.parse` makes of it: the empty
string, text that is not JSON, JSON that cannot be iterated and has no `push` (null,
number, boolean, object), a JSON string, or a JSON array. -/
inductive Stored where
  | empty
  | invalid
  | nonIterable
  | text (s : String)
  | array (l : List Entry)
deriving DecidableEq, Repr

/-- Which AsyncStorage calls succeed. -/
structure StorageNet where
  read : Bool := true
  write : Bool := true
  remove : Bool := true
deriving DecidableEq, Repr

/-- The object `{...action, timestamp: Date.now()}`. -/
def stamp (now : Nat) (action : Action) : Action :=
  { action with timestamp := some now }

/-- The `try` block of `saveOfflineAction`: read the stored value, parse it (an absent
or empty value gives `[]`), push the stamped action and write the list back. -/
def saveOfflineActionTry (sn : StorageNet) (now : Nat) (action : Action)
    (st : Option Stored) : Except JsError (Option Stored) :=
  if sn.read then
    match st with
    | none => if sn.write then .ok (some (.array [.action (stamp now action)])) else .error .storage
    | some .empty =>
      if sn.write then .ok (some (.array [.action (stamp now action)])) else .error .storage
    | some .invalid => .error .syntaxError
    | some .nonIterable => .error .typeError
    | some (.text _) => .error .typeError
    | some (.array actions) =>
      if sn.write then .ok (some (.array (actions ++ [.action (stamp now action)])))
      else .error .storage
  else .error .storage

/-- `saveOfflineAction(action)`: the `catch` logs the error and the call returns
normally; the result is the stored value afterwards and how the call completed. -/
def saveOfflineAction (sn : StorageNet) (now : Nat) (action : Action) (st : Option Stored) :
    Option Stored × Except JsError Unit :=
  match saveOfflineActionTry sn now action st with
  | .ok st1 => (st1, .ok ())
  | .error _ => (st, .ok ())

/-- Firestore `update(data)` with plain data: every field present in `data` replaces the
field of the document. -/
def UserData.update (data u : UserData) : UserData :=
  { userType := data.userType.orElse fun _ => u.userType
    isVerified := data.isVerified.orElse fun _ => u.isVerified
    profileComplete := data.profileComplete.orElse fun _ => u.profileComplete
    isActive := data.isActive.orElse fun _ => u.isActive
    swipedProfiles := data.swipedProfiles.orElse fun _ => u.swipedProfiles
    likedProfiles := data.likedProfiles.orElse fun _ => u.likedProfiles
    matchIds := data.matchIds.orElse fun _ => u.matchIds
    blockedUsers := data.blockedUsers.orElse fun _ => u.blockedUsers }

/-- Firestore `collection('matches').doc(matchId).collection('messages').add(data)`; the
parent document need not exist, and `doc()` without an id generates one. -/
def addMessage (ok : Bool) (matchId : Option DocId) (m : MessageData) (r : Remote) :
    Except JsError Remote :=
  if ok then
    match matchId with
    | some mid =>
      .ok { r with messages := r.messages ++ [⟨mid, r.nextId, m⟩], nextId := r.nextId + 1 }
    | none =>
      .ok { r with messages := r.messages ++ [⟨r.nextId, r.nextId + 1, m⟩],
                   nextId := r.nextId + 2 }
  else .error .unavailable

/-- Firestore `collection('reports').add(data)`. -/
def addReport (ok : Bool) (d : ReportData) (r : Remote) : Except JsError Remote :=
  if ok then
    .ok { r with reports := r.reports ++ [⟨r.nextId, d⟩], nextId := r.nextId + 1 }
  else .error .unavailable

/-- `executeAction(action)`: one remote write chosen by `action.type`; an unknown type is
logged.  A missing payload makes the write reject. -/
def executeAction (ok : Bool) (action : Action) (r : Remote) : Except JsError Remote :=
  match action.type with
  | some .update_profile =>
    match action.userId, action.data with
    | some uid, some data => updateUser ok uid data.update r
    | none, some _ => .error .notFound
    | _, none => .error .invalidArgument
  | some .send_message =>
    match action.messageData with
    | some m => addMessage ok action.matchId m r
    | none => .error .invalidArgument
  | some .create_match =>
    match action.matchData with
    | some d =>
      match addMatch ok d r with
      | .ok (_, r1) => .ok r1
      | .error e => .error e
    | none => .error .invalidArgument
  | some .report_user =>
    match action.reportData with
    | some d => addReport ok d r
    | none => .error .invalidArgument
  | some (.other _) => .ok r
  | none => .ok r

/-- The statement `try { await this.executeAction(action) } catch (error) {...}` of the
loop in `syncPendingActions`; reading `type` of `null` throws, a value that is not an
object has no `type`. -/
def tryExecute (ok : Bool) (e : Entry) (r : Remote) : Remote :=
  match e with
  | .null => r
  | .nonObject => r
  | .action a =>
    match executeAction ok a r with
    | .ok r1 => r1
    | .error _ => r

/-- The loop `for (const action of actions)` of `syncPendingActions`, from iteration `i`
on; `net i` says whether the write of iteration `i` reaches the server. -/
def runEntries (net : Nat → Bool) : Nat → List Entry → Remote → Remote
  | _, [], r => r
  | i, e :: es, r => runEntries net (i + 1) es (tryExecute (net i) e r)

/-- `syncPendingActions()`: nothing when the stored value is absent or empty or cannot be
read; a parse error or a value that cannot be iterated is caught before anything runs;
otherwise every element is executed in order and the key is removed. -/
def syncPendingActions (sn : StorageNet) (net : Nat → Bool) (st : Option Stored)
    (r : Remote) : Option Stored × Remote :=
  if sn.read then
    match st with
    | none => (st, r)
    | some .empty => (st, r)
    | some .invalid => (st, r)
    | some .nonIterable => (st, r)
    | some (.text _) => (if sn.remove then none else st, r)
    | some (.array actions) =>
      (if sn.remove then none else st, runEntries net 0 actions r)
  else (st, r)

/-- The stored value after saving the actions of `acts` in order, each at its time. -/
def saveAll (sn : StorageNet) (acts : List (Nat × Action)) (st : Option Stored) :
    Option Stored :=
  acts.foldl (fun st ta => (saveOfflineAction sn ta.1 ta.2 st).1) st

/-- The action `{type: 'send_message', matchId, messageData}`. -/
def sendMessageAction (matchId : DocId) (m : MessageData) : Action :=
  { type := some .send_message, matchId := some matchId, messageData := some m }

/-- The list `saveOfflineAction` pushes onto: `[]` for an absent or empty value, the
elements of a stored array; `none` when `JSON.parse` throws or the value has no `push`. -/
def pendingList : Option Stored → Option (List Entry)
  | none => some []
  | some .empty => some []
  | some (.array l) => some l
  | some _ => none

/-- The persisted `pending_actions` list ends with `a`. -/
def endsWith (st : Option Stored) (a : Action) : Prop :=
  ∃ l, st = some (.array (l ++ [.action a]))

/-! ## `OfflineService.js`: how the sync calls complete -/

/-- The `try` block of `syncPendingActions`: what it throws or the stored value it leaves,
and the remote state reached. -/
def syncPendingActionsTry (sn : StorageNet) (net : Nat → Bool) (st : Option Stored)
    (r : Remote) : Except JsError (Option Stored) × Remote :=
  if sn.read then
    match st with
    | none => (.ok st, r)
    | some .empty => (.ok st, r)
    | some .invalid => (.error .syntaxError, r)
    | some .nonIterable => (.error .typeError, r)
    | some (.text _) => (if sn.remove then .ok none else .error .storage, r)
    | some (.array actions) =>
      (if sn.remove then .ok none else .error .storage, runEntries net 0 actions r)
  else (.error .storage, r)

/-- `syncPendingActions()` together with the way the call completes: the `catch` logs
whatever the `try` block threw. -/
def syncPendingActionsCall (sn : StorageNet) (net : Nat → Bool) (st : Option Stored)
    (r : Remote) : (Option Stored × Remote) × Except JsError Unit :=
  match syncPendingActionsTry sn net st r with
  | (.ok st1, r1) => ((st1, r1), .ok ())
  | (.error _, r1) => ((st, r1), .ok ())

/-- `syncOfflineData()`: nothing when offline; otherwise `syncPendingActions`,
`syncOfflineAnalytics` and `cleanupOldOfflineData` one after another inside a `try` whose
`catch` logs. The last two work on the keys `offline_analytics` and `offline_data` and on
the collection `analytics`; only the way they complete is taken, as `analytics` and
`cleanup`. -/
def syncOfflineData (isOnline : Bool) (sn : StorageNet) (net : Nat → Bool)
    (analytics cleanup : Except JsError Unit) (st : Option Stored) (r : Remote) :
    (Option Stored × Remote) × Except JsError Unit :=
  if isOnline then
    match syncPendingActionsCall sn net st r with
    | (x, .error _) => (x, .ok ())
    | (x, .ok ()) =>
      match analytics with
      | .error _ => (x, .ok ())
      | .ok () =>
        match cleanup with
        | .error _ => (x, .ok ())
        | .ok () => (x, .ok ())
  else ((st, r), .ok ())

/-- State of the service object: `isOnline`, and how often the network listener has
called `syncOfflineData` so far. -/
structure OfflineService where
  isOnline : Bool := true
  syncCalls : Nat := 0
deriving DecidableEq, Repr

/-- The callback given to `NetInfo.addEventListener`, on an event with `state.isConnected`. -/
def networkListener (isConnected : Bool) (s : OfflineService) : OfflineService :=
  let wasOffline := !s.isOnline
  if wasOffline && isConnected then
    { isOnline := isConnected, syncCalls := s.syncCalls + 1 }
  else
    { s with isOnline := isConnected }

/-- The listener run on a sequence of connectivity events. -/
def deliver (events : List Bool) (s : OfflineService) : OfflineService :=
  events.foldl (fun s e => networkListener e s) s

/-- Number of offline-to-online transitions of a sequence of connectivity values that
follows the value `previous`. -/
def offlineToOnline : Bool → List Bool → Nat
  | _, [] => 0
  | previous, e :: es => (if previous = false ∧ e = true then 1 else 0) + offlineToOnline e es

/-! ## `ErrorService.js`: `retryOperation` -/

/-- Outcome of `retryOperation`: the value returned or the error thrown (`none` is
`undefined`, thrown when no attempt ran), the number of calls of the operation, and the
waits passed to `setTimeout`, in milliseconds, in order. -/
structure RetryRun (ε α : Type) where
  result : Except (Option ε) α
  attempts : Nat
  waits : List Nat

/-- The loop `for (let i = 0; i < maxRetries; i++)` of `retryOperation` with `n` iterations
left; `operation i` is the outcome of the call made in iteration `i`. -/
def retryLoop {ε α : Type} (operation : Nat → Except ε α) (maxRetries : Int) (delay : Nat) :
    Nat → Nat → Option ε → List Nat → RetryRun ε α
  | 0, i, lastError, waits => ⟨.error lastError, i, waits⟩
  | n + 1, i, _, waits =>
    match operation i with
    | .ok v => ⟨.ok v, i + 1, waits⟩
    | .error e =>
      retryLoop operation maxRetries delay n (i + 1) (some e)
        (if (i : Int) < maxRetries - 1 then waits ++ [delay * 2 ^ i] else waits)

/-- `retryOperation(operation, maxRetries, delay)`. -/
def retryOperation {ε α : Type} (operation : Nat → Except ε α) (maxRetries : Int)
    (delay : Nat) : RetryRun ε α :=
  retryLoop operation maxRetries delay maxRetries.toNat 0 none []

/-! ## `MatchesScreen.js`, `ChatScreen.js`, `ReportBlockModal.js` -/

/-- The text built from a positive `diff` in milliseconds: hours and minutes left. -/
def timeLeftLabel (diff : Int) : String :=
  let hours := diff / (1000 * 60 * 60)
  let minutes := (diff % (1000 * 60 * 60)) / (1000 * 60)
  if hours > 0 then
    toString hours ++ "h " ++ toString minutes ++ "m left"
  else
    toString minutes ++ "m left"

/-- `formatTimeRemaining(expiresAt)` of `MatchesScreen`, at the instant `now`. -/
def formatTimeRemaining (expiresAt now : Nat) : String :=
  let diff : Int := (expiresAt : Int) - (now : Int)
  if diff ≤ 0 then "Expired" else timeLeftLabel diff

/-- `handleMatchPress(match)` of `MatchesScreen`: `true` when the chat is opened, `false`
when the alert `Match Expired` is shown instead. -/
def handleMatchPress (expiresAt now : Nat) : Bool :=
  if now > expiresAt then false else true

/-- `updateTimeRemaining()` of `ChatScreen`: the value of the state `timeRemaining` after
the call, for the value `seen` of the state `match` that the function closes over. -/
def updateTimeRemaining (seen : Option MatchData) (now : Nat) (timeRemaining : String) :
    String :=
  match seen with
  | none => timeRemaining
  | some m =>
    let diff : Int := (m.expiresAt : Int) - (now : Int)
    if diff ≤ 0 then "Expired" else timeLeftLabel diff

/-- State of the chat screen: the route parameter, the signed-in user and the states
`match` (a reserved word here) and `timeRemaining`. -/
structure ChatScreen where
  matchId : DocId
  uid : UserId
  loaded : Option MatchData := none
  timeRemaining : String := ""
deriving DecidableEq, Repr

/-- Data of `matches/{matchId}` as returned by `doc(matchId).get()`. -/
def Remote.getMatch (r : Remote) (matchId : DocId) : Option MatchData :=
  (r.matchDocs.find? fun m => m.id = matchId).map fun m => m.data

/-- `loadMatchData()` as created by the render with state `c`: the match document is read
and stored with `setMatch`; the call `updateTimeRemaining()` at its end is the function of
the same render, which still sees the `match` of `c`. Reading the other user may throw
before that call. -/
def loadMatchData (readOk otherOk : Bool) (now : Nat) (c : ChatScreen) (r : Remote) :
    ChatScreen :=
  if readOk then
    match r.getMatch c.matchId with
    | none => c
    | some matchData =>
      if otherOk then
        { c with loaded := some matchData,
                 timeRemaining := updateTimeRemaining c.loaded now c.timeRemaining }
      else { c with loaded := some matchData }
  else c

/-- One tick of `setInterval(updateTimeRemaining, 1000)`: the function registered by the
effect is the one of the render with state `c0`, in which the effect ran. -/
def timerTick (c0 : ChatScreen) (now : Nat) (c : ChatScreen) : ChatScreen :=
  { c with timeRemaining := updateTimeRemaining c0.loaded now c.timeRemaining }

/-- Firestore `collection('matches').doc(matchId).update(...)`. -/
def updateMatch (ok : Bool) (matchId : DocId) (f : MatchData → MatchData) (r : Remote) :
    Except JsError Remote :=
  if ok then
    match r.getMatch matchId with
    | none => .error .notFound
    | some _ =>
      .ok { r with
            matchDocs := r.matchDocs.map fun m =>
              if m.id = matchId then { m with data := f m.data } else m }
  else .error .unavailable

/-- `onSend(newMessages)` of `ChatScreen` with `message = newMessages[0]`, in the render
with state `c`: refused when no match is loaded or `timeRemaining` is `Expired`; otherwise
the message is added and the match document updated; errors are caught. -/
def onSend (addOk updateOk : Bool) (serverNow : Nat) (message : MessageData)
    (c : ChatScreen) (r : Remote) : Remote :=
  if c.loaded.isNone || c.timeRemaining = "Expired" then r
  else
    match addMessage addOk (some c.matchId) { message with createdAt := some serverNow } r with
    | .error _ => r
    | .ok r1 =>
      match updateMatch updateOk c.matchId
          (fun d => { d with lastMessage := some message.text,
                             lastMessageAt := some serverNow }) r1 with
      | .ok r2 => r2
      | .error _ => r1

/-- `FieldValue.arrayRemove(x)` applied to an array field: every occurrence of `x` is
removed; an absent field becomes the empty array. -/
def arrayRemove {α : Type} [DecidableEq α] (x : α) : Option (List α) → Option (List α)
  | none => some []
  | some l => some (l.filter fun y => y ≠ x)

/-- The confirmed `handleUnmatch` of `MatchesScreen` and of `ChatScreen` (the same two
writes): deactivate the match, then remove its id from the `matches` array of the
signed-in user; a failing write stops the sequence. -/
def handleUnmatch (matchOk userOk : Bool) (matchId : DocId) (uid : UserId) (r : Remote) :
    Remote :=
  match updateMatch matchOk matchId (fun d => { d with isActive := false }) r with
  | .error _ => r
  | .ok r1 =>
    match updateUser userOk uid
        (fun u => { u with matchIds := arrayRemove matchId u.matchIds }) r1 with
    | .ok r2 => r2
    | .error _ => r1

/-- Which requests of `handleBlock` succeed: the update of the user, the query and the
commit of the batch. -/
structure BlockNet where
  block : Bool := true
  query : Bool := true
  commit : Bool := true
deriving DecidableEq, Repr

/-- A match document is shared by `uid` and `target`: the query `array-contains uid`
returns it and its `users` include `target`. -/
def sharedBy (uid target : UserId) (m : MatchDoc) : Bool :=
  decide (uid ∈ m.data.users) && decide (target ∈ m.data.users)

/-- The confirmed `handleBlock`: add the target to `blockedUsers` of the signed-in user,
query the matches containing the user and, in one batch, set `isActive: false` and
`blockedAt` on those that include the target. -/
def handleBlock (net : BlockNet) (serverNow : Nat) (uid target : UserId) (r : Remote) :
    Remote :=
  match updateUser net.block uid
      (fun u => { u with blockedUsers := arrayUnion target u.blockedUsers }) r with
  | .error _ => r
  | .ok r1 =>
    if net.query && net.commit then
      { r1 with
        matchDocs := r1.matchDocs.map fun m =>
          if sharedBy uid target m then
            { m with data := { m.data with isActive := false, blockedAt := some serverNow } }
          else m }
    else r1

/-! ## Operations on matches, startup, deferred updates and profile loading -/

/-- The `try` block of `handleLike`: what it throws, if anything, and the state reached.
With no document for the profile `otherUserData` is `undefined` and reading its
`likedProfiles` throws a `TypeError`. -/
def handleLikeTry (net : SwipeNet) (now serverNow : Nat) (uid : UserId) (profile : Profile)
    (r : Remote) : Except JsError Unit × Remote :=
  match readUser net.read profile.id r with
  | .error e => (.error e, r)
  | .ok none => (.error .typeError, r)
  | .ok (some otherUserData) =>
    if likedIncludes otherUserData uid then
      (.ok (), createMatch net now serverNow uid profile r)
    else
      match updateUser net.like profile.id
          (fun u => { u with likedProfiles := arrayUnion uid u.likedProfiles }) r with
      | .ok r1 => (.ok (), r1)
      | .error e => (.error e, r)

/-- `handleLike(profile)` together with the way the call completes: the `catch` logs
whatever the `try` block threw. -/
def handleLikeCall (net : SwipeNet) (now serverNow : Nat) (uid : UserId) (profile : Profile)
    (r : Remote) : Remote × Except JsError Unit :=
  match handleLikeTry net now serverNow uid profile r with
  | (.ok _, r1) => (r1, .ok ())
  | (.error _, r1) => (r1, .ok ())

/-- One operation on the remote store by a user of the application: a swipe, a match
creation, a message sent from the chat, a confirmed unmatch, a confirmed block. -/
inductive Op where
  | swipe (net : SwipeNet) (now serverNow : Nat) (direction : Direction) (s : SwipeScreen)
  | createMatch (net : SwipeNet) (now serverNow : Nat) (uid : UserId) (profile : Profile)
  | send (addOk updateOk : Bool) (serverNow : Nat) (message : MessageData) (c : ChatScreen)
  | unmatch (matchOk userOk : Bool) (matchId : DocId) (uid : UserId)
  | block (net : BlockNet) (serverNow : Nat) (uid target : UserId)

/-- The remote state after one operation. -/
def Op.apply : Op → Remote → Remote
  | .swipe net now serverNow direction s, r => (handleSwipe net now serverNow direction s r).2
  | .createMatch net now serverNow uid profile, r =>
    BrandModel.createMatch net now serverNow uid profile r
  | .send addOk updateOk serverNow message c, r => onSend addOk updateOk serverNow message c r
  | .unmatch matchOk userOk matchId uid, r => handleUnmatch matchOk userOk matchId uid r
  | .block net serverNow uid target, r => handleBlock net serverNow uid target r

/-- The remote state after a sequence of operations, one after another. -/
def runOps (ops : List Op) (r : Remote) : Remote :=
  ops.foldl (fun r o => o.apply r) r

/-- The methods the class `OfflineService` defines. -/
def offlineServiceMethods : List String :=
  ["setupNetworkListener", "saveOfflineData", "getOfflineData", "saveOfflineAction",
   "syncOfflineData", "syncPendingActions", "executeAction", "syncOfflineAnalytics",
   "cleanupOldOfflineData", "fetchWithOfflineFallback", "updateWithOfflineFallback",
   "clearCache", "getCacheSize", "isConnected", "getNetworkState"]

/-- What `initializeServices` did: whether it called `syncOfflineData`, and the stored
queue and remote state afterwards. -/
structure Startup where
  syncCalled : Bool
  stored : Option Stored
  remote : Remote
deriving DecidableEq, Repr

/-- `initializeServices()` of `App.js`: inside one `try`, first
`OfflineService.loadErrorLogs()`, then `syncOfflineData()` if `isConnected()`. Calling a
method the object does not have throws a `TypeError`, which the `catch` hands to
`ErrorService.logError`; the statements after it are skipped. -/
def initializeServices (s : OfflineService) (sn : StorageNet) (net : Nat → Bool)
    (analytics cleanup : Except JsError Unit) (st : Option Stored) (r : Remote) : Startup :=
  if "loadErrorLogs" ∈ offlineServiceMethods then
    if s.isOnline then
      ⟨true, (syncOfflineData s.isOnline sn net analytics cleanup st r).1.1,
        (syncOfflineData s.isOnline sn net analytics cleanup st r).1.2⟩
    else ⟨false, st, r⟩
  else ⟨false, st, r⟩

/-- The object `{type: actionType, collection, docId, data}` that
`updateWithOfflineFallback` saves. -/
def fallbackAction (collection : String) (docId : Nat) (data : UserData)
    (actionType : ActionType) : Action :=
  { type := some actionType, collection := some collection, docId := some docId,
    data := some data }

/-- Firestore `collection(collection).doc(docId).update(data)` for profile data: in the
collection `users` it is `updateUser`; a document of another collection is outside the
state kept here, which the write leaves as it is. -/
def updateDoc (ok : Bool) (collection : String) (docId : Nat) (data : UserData)
    (r : Remote) : Except JsError Remote :=
  if collection = "users" then updateUser ok docId data.update r
  else if ok then .ok r else .error .unavailable

/-- `updateWithOfflineFallback(collection, docId, data, actionType)`: online, the update
is written directly and on an error the action is saved; offline, the action is saved. -/
def updateWithOfflineFallback (isOnline ok : Bool) (sn : StorageNet) (now : Nat)
    (collection : String) (docId : Nat) (data : UserData) (actionType : ActionType)
    (st : Option Stored) (r : Remote) : Option Stored × Remote :=
  if isOnline then
    match updateDoc ok collection docId data r with
    | .ok r1 => (st, r1)
    | .error _ =>
      ((saveOfflineAction sn now (fallbackAction collection docId data actionType) st).1, r)
  else ((saveOfflineAction sn now (fallbackAction collection docId data actionType) st).1, r)

/-- The query of `loadProfiles` on one user document: the wanted `userType`, verified,
complete and active. -/
def queryAccepts (targetUserType : String) (e : UserId × UserData) : Bool :=
  decide (e.2.userType = some targetUserType) && decide (e.2.isVerified = some true)
    && decide (e.2.profileComplete = some true) && decide (e.2.isActive = some true)

/-- The test `userData.swipedProfiles?.includes(doc.id)`. -/
def swipedIncludes (userData : UserData) (id : UserId) : Bool :=
  match userData.swipedProfiles with
  | none => false
  | some l => decide (id ∈ l)

/-- `loadProfiles()` of `SwipeScreen` for the signed-in user `uid`: the list given to
`setProfiles`, or `none` when an error is caught before (reading `userType` of
`undefined` when the user has no document is a `TypeError`). The query returns at most
20 documents, in the order of the store; those already swiped are left out. -/
def loadProfiles (readOk queryOk : Bool) (uid : UserId) (r : Remote) : Option (List Profile) :=
  match readUser readOk uid r with
  | .error _ => none
  | .ok none => none
  | .ok (some userData) =>
    if queryOk then
      let targetUserType := if userData.userType = some "model" then "brand" else "model"
      let snapshot := (r.users.filter (queryAccepts targetUserType)).take 20
      some ((snapshot.filter fun e => !(swipedIncludes userData e.1)).map fun e => ⟨e.1⟩)
    else none

/-- Every match document of `r` is still at its place in `r1`, with the same id, and
inactive there if it was inactive in `r`. -/
def KeepsInactive (r r1 : Remote) : Prop :=
  ∀ (i : Nat) (m : MatchDoc), r.matchDocs.get? i = some m →
    ∃ m1, r1.matchDocs.get? i = some m1 ∧ m1.id = m.id
      ∧ (m.data.isActive = false → m1.data.isActive = false)

/-! ## `OfflineService.js`: the cache under `offline_data` -/

/-- A JSON value kept in the cache: `null`, a boolean, an integer, a string, or the data
of a document. -/
inductive CacheValue where
  | null
  | bool (b : Bool)
  | num (n : Int)
  | str (s : String)
  | doc (d : UserData)
deriving DecidableEq, Repr

/-- JavaScript truthiness: `null`, `false`, `0` and the empty string are falsy. -/
def CacheValue.truthy : CacheValue → Bool
  | .null => false
  | .bool b => b
  | .num n => decide (n ≠ 0)
  | .str s => decide (s ≠ "")
  | .doc _ => true

/-- An entry `{data, timestamp}` of the cache. -/
structure CacheEntry where
  data : CacheValue
  timestamp : Nat
deriving DecidableEq, Repr

/-- An element of a stored JSON array: `null`, a cache entry `{data, timestamp}`, or a
value that is neither (a number, a string, a boolean, an array). -/
inductive ArrayElem where
  | null
  | other
  | entry (e : CacheEntry)
deriving DecidableEq, Repr

/-- The string kept under `offline_data`, by what `JSON.parse` makes of it: the empty
string, text that is not JSON, an object of cache entries with its keys in order, a JSON
`null`, boolean, number or string (`primitive`), or a JSON array. -/
inductive OfflineStored where
  | empty
  | invalid
  | map (entries : List (String × CacheEntry))
  | primitive
  | array (elems : List ArrayElem)
deriving DecidableEq, Repr

/-- The number written by a list of decimal digits, the most significant first, added to
ten times `acc` per digit; `none` when a character is not a digit. -/
def digitsValue : List Char → Nat → Option Nat
  | [], acc => some acc
  | c :: cs, acc =>
    if c.isDigit then digitsValue cs (acc * 10 + (c.toNat - '0'.toNat)) else none

/-- The array index a property key denotes, if any: the decimal text of a number below
`2^32 - 1`, without leading zeros. -/
def arrayIndex (key : String) : Option Nat :=
  match key.data with
  | [] => none
  | c :: cs =>
    if c = '0' ∧ cs ≠ [] then none
    else
      match digitsValue (c :: cs) 0 with
      | some n => if n < 4294967295 then some n else none
      | none => none

/-- The assignment `array[i] = x`: an element in range is replaced; beyond the end the
array grows, and the holes in between are written by `JSON.stringify` as `null`. -/
def setElem (i : Nat) (x : ArrayElem) (elems : List ArrayElem) : List ArrayElem :=
  if i < elems.length then elems.set i x
  else elems ++ List.replicate (i - elems.length) ArrayElem.null ++ [x]

/-- The assignment `parsedData[key] = entry` on the own properties of the object: an
existing key keeps its place, a new key comes last. -/
def setKey (key : String) (entry : CacheEntry) :
    List (String × CacheEntry) → List (String × CacheEntry)
  | [] => [(key, entry)]
  | (k, v) :: rest => if k = key then (k, entry) :: rest else (k, v) :: setKey key entry rest

/-- The statements `JSON.parse` and `parsedData[key] = {data, timestamp}` of
`saveOfflineData`: the value that `JSON.stringify` will write, or the error thrown. An
absent or empty value gives `{}`. On an object, assigning an object to the key `__proto__`
sets the prototype instead of a property, so nothing is added. On `null` and, in the
strict code of a module, on a boolean, number or string the assignment throws a
`TypeError`. On an array, the key `length` throws a `RangeError`, an array index sets that
element, and any other key sets a property that `JSON.stringify` leaves out. -/
def assignEntry (key : String) (entry : CacheEntry) :
    Option OfflineStored → Except JsError OfflineStored
  | none => .ok (.map (if key = "__proto__" then [] else setKey key entry []))
  | some .empty => .ok (.map (if key = "__proto__" then [] else setKey key entry []))
  | some .invalid => .error .syntaxError
  | some (.map l) => .ok (.map (if key = "__proto__" then l else setKey key entry l))
  | some .primitive => .error .typeError
  | some (.array elems) =>
    if key = "length" then .error .rangeError
    else
      match arrayIndex key with
      | some i => .ok (.array (setElem i (.entry entry) elems))
      | none => .ok (.array elems)

/-- The `try` block of `saveOfflineData(key, data)`: the value written back, or the error
thrown by the read, the parse, the assignment or the write. -/
def saveOfflineDataTry (sn : StorageNet) (now : Nat) (key : String) (data : CacheValue)
    (st : Option OfflineStored) : Except JsError (Option OfflineStored) :=
  if sn.read then
    match assignEntry key ⟨data, now⟩ st with
    | .error e => .error e
    | .ok v => if sn.write then .ok (some v) else .error .storage
  else .error .storage

/-- `saveOfflineData(key, data)`: the `catch` logs; the stored value afterwards. -/
def saveOfflineData (sn : StorageNet) (now : Nat) (key : String) (data : CacheValue)
    (st : Option OfflineStored) : Option OfflineStored :=
  match saveOfflineDataTry sn now key data st with
  | .ok st1 => st1
  | .error _ => st

/-- `getOfflineData(key)`: `parsedData[key]?.data || null`, and `null` when nothing is
stored or an error is caught (the parse error, or the `TypeError` of reading a property of
`null`). A boolean, number or string has no property with a `data`; an array has one only
at an index that holds an entry. -/
def getOfflineData (sn : StorageNet) (key : String) (st : Option OfflineStored) : CacheValue :=
  if sn.read then
    match st with
    | some (.map l) =>
      match l.lookup key with
      | some e => if e.data.truthy then e.data else .null
      | none => .null
    | some (.array elems) =>
      match arrayIndex key with
      | some i =>
        match elems.get? i with
        | some (.entry e) => if e.data.truthy then e.data else .null
        | _ => .null
      | none => .null
    | _ => .null
  else .null

/-- Seven days in milliseconds, `7 * 24 * 60 * 60 * 1000`. -/
def maxAge : Nat := 7 * 24 * 60 * 60 * 1000

/-- `cleanupOldOfflineData()` at the instant `now`: every entry with
`now - timestamp > maxAge` is deleted and the object is written back; errors are caught.
In an array a deleted element leaves a hole, written as `null`, and an element `null`
makes the read of its `timestamp` throw before anything is written. A `null`, boolean,
number or string has no entries: the stored value stays what it is. -/
def cleanupOldOfflineData (sn : StorageNet) (now : Nat) (st : Option OfflineStored) :
    Option OfflineStored :=
  if sn.read then
    match st with
    | some (.map l) =>
      if sn.write then
        some (.map (l.filter fun e =>
          !decide ((now : Int) - (e.2.timestamp : Int) > (maxAge : Int))))
      else st
    | some (.array elems) =>
      if elems.contains ArrayElem.null then st
      else if sn.write then
        some (.array (elems.map fun x =>
          match x with
          | .entry e =>
            if (now : Int) - (e.timestamp : Int) > (maxAge : Int) then ArrayElem.null else x
          | _ => x))
      else st
    | _ => st
  else st

/-- The cache entries of a stored `offline_data` object: none for an absent or empty value
and for a value that is not an object. -/
def entriesOf : Option OfflineStored → List (String × CacheEntry)
  | some (.map l) => l
  | _ => []

/-! ## Concrete states used to evaluate the code -/

/-- Two existing users without likes or matches. -/
def twoUsers : Remote := { users := [(1, {}), (2, {})] }

/-- Two existing users; user 2 already lists user 1 in `likedProfiles`. -/
def likedRemote : Remote := { users := [(1, {}), (2, { likedProfiles := some [1] })] }

/-- Screen of user 1 with the profile of user 2 on top. -/
def screenA : SwipeScreen := ⟨1, [⟨2⟩], 0⟩

/-- Screen of user 2 with the profile of user 1 on top. -/
def screenB : SwipeScreen := ⟨2, [⟨1⟩], 0⟩

/-- Users 1 and 2 with one match between them, document 0, which expires at 1000. -/
def matchedRemote : Remote :=
  { users := [(1, { matchIds := some [0] }), (2, { matchIds := some [0] })]
    matchDocs := [⟨0, { users := [1, 2], createdAt := some 0, expiresAt := 1000,
                        isActive := true }⟩]
    nextId := 1 }

/-- The chat screen of user 1 for match 0 at its first render. -/
def chatMounted : ChatScreen := { matchId := 0, uid := 1 }

/-- A model (user 1), who has blocked user 2 and swiped nobody, and a verified, complete
and active brand (user 2). -/
def blockedRemote : Remote :=
  { users := [(1, { userType := some "model", isVerified := some true,
                    profileComplete := some true, isActive := some true,
                    blockedUsers := some [2] }),
              (2, { userType := some "brand", isVerified := some true,
                    profileComplete := some true, isActive := some true })] }

/-! ## Lemmas on the remote store and on one swipe -/

theorem lookup_modifyUser (uid v : UserId) (f : UserData → UserData)
    (us : List (UserId × UserData)) :
    (modifyUser uid f us).lookup v = if v = uid then (us.lookup v).map f else us.lookup v := by
  induction us with
  | nil => simp [modifyUser]
  | cons e us ih =>
    obtain ⟨k, d⟩ := e
    have ih2 := ih
    unfold modifyUser at ih2
    by_cases hk : k = uid <;> by_cases hv : v = k
    · subst hv; subst hk; simp [modifyUser, List.lookup_cons]
    · have hb : (v == k) = false := by simpa using hv
      subst hk
      simp [modifyUser, List.lookup_cons, hb, hv, ih2]
    · subst hv; simp [modifyUser, List.lookup_cons, hk]
    · have hb : (v == k) = false := by simpa using hv
      simp [modifyUser, List.lookup_cons, hb, hk, ih2]

theorem getUser_modify (r : Remote) (uid v : UserId) (f : UserData → UserData) :
    ({ r with users := modifyUser uid f r.users } : Remote).getUser v
      = if v = uid then (r.getUser v).map f else r.getUser v := by
  simp [Remote.getUser, lookup_modifyUser]

theorem mem_arrayUnion_self {α : Type} [DecidableEq α] (x : α) (o : Option (List α)) :
    x ∈ (arrayUnion x o).getD [] := by
  cases o with
  | none => simp [arrayUnion]
  | some l =>
    by_cases h : x ∈ l <;> simp [arrayUnion, h]

theorem getUser_recordSwiped_liked (uid target v : UserId) (r : Remote) :
    ((recordSwiped uid target r).getUser v).map (·.likedProfiles)
      = (r.getUser v).map (·.likedProfiles) := by
  unfold recordSwiped
  rw [getUser_modify]
  by_cases h : v = uid
  · simp only [h, if_true]
    cases r.getUser uid <;> simp
  · simp [h]

theorem getUser_recordSwiped_matchIds (uid target v : UserId) (r : Remote) :
    ((recordSwiped uid target r).getUser v).map (·.matchIds)
      = (r.getUser v).map (·.matchIds) := by
  unfold recordSwiped
  rw [getUser_modify]
  by_cases h : v = uid
  · simp only [h, if_true]
    cases r.getUser uid <;> simp
  · simp [h]

theorem handleSwipe_snd (net : SwipeNet) (now serverNow : Nat) (d : Direction) (s : SwipeScreen)
    (r : Remote) (target : Profile) (hcur : s.profiles.get? s.currentIndex = some target) :
    (handleSwipe net now serverNow d s r).2 = swipe net now serverNow s.uid target d r := by
  simp only [handleSwipe, hcur]

theorem swipe_right_eq (net : SwipeNet) (now serverNow : Nat) (uid : UserId) (p : Profile)
    (r : Remote) (ua : UserData) (ha : r.getUser uid = some ua) (hs : net.swiped = true) :
    swipe net now serverNow uid p .right r
      = handleLike net now serverNow uid p (recordSwiped uid p.id r) := by
  simp [swipe, hs, updateUser, ha, recordSwiped]

theorem getUser_recordSwiped_some (uid target v : UserId) (r : Remote) (u : UserData)
    (h : r.getUser v = some u) :
    ∃ u2, (recordSwiped uid target r).getUser v = some u2
      ∧ u2.likedProfiles = u.likedProfiles ∧ u2.matchIds = u.matchIds := by
  unfold recordSwiped
  rw [getUser_modify]
  by_cases hv : v = uid
  · simp only [hv, if_true]
    rw [hv] at h
    simp [h]
  · simp [hv, h]

theorem createMatch_eq (net : SwipeNet) (now serverNow : Nat) (uid : UserId) (p : Profile)
    (r : Remote) (ua ut : UserData) (ha : r.getUser uid = some ua)
    (ht : r.getUser p.id = some ut) :
    createMatch net now serverNow uid p r =
      if net.add then
        { r with
          users := ((if net.targetMatches then modifyUser p.id (addMatchId r.nextId) else id)
            ((if net.actorMatches then modifyUser uid (addMatchId r.nextId) else id) r.users)),
          matchDocs := r.matchDocs ++ [newMatch now serverNow uid p.id r],
          nextId := r.nextId + 1 }
      else r := by
  have hget : ∀ (us : List (UserId × UserData)) (v : UserId),
      ({ users := us, matchDocs := r.matchDocs ++ [newMatch now serverNow uid p.id r],
         messages := r.messages, reports := r.reports, nextId := r.nextId + 1 } : Remote).getUser v
        = us.lookup v := fun _ _ => rfl
  have ha2 : r.users.lookup uid = some ua := ha
  have ht2 : r.users.lookup p.id = some ut := ht
  cases hadd : net.add <;> cases hact : net.actorMatches <;> cases htg : net.targetMatches <;>
    simp [createMatch, addMatch, updateUser, hadd, hact, htg, Remote.getUser, ha2, ht2,
      lookup_modifyUser, newMatch]
  all_goals by_cases hpu : p.id = uid
  all_goals simp [hpu, ha2, ht2]

theorem likedIncludes_iff (u : UserData) (uid : UserId) :
    likedIncludes u uid = true ↔ uid ∈ u.likedProfiles.getD [] := by
  unfold likedIncludes
  cases u.likedProfiles <;> simp

theorem likedIncludes_congr (u u2 : UserData) (uid : UserId)
    (h : u2.likedProfiles = u.likedProfiles) : likedIncludes u2 uid = likedIncludes u uid := by
  simp [likedIncludes, h]

/-- A right swipe whose first write and read succeed, on a target that already lists the
actor in `likedProfiles`, is `createMatch` on the state with the swipe recorded. -/
theorem swipe_right_reciprocal (net : SwipeNet) (now serverNow : Nat) (uid : UserId)
    (p : Profile) (r : Remote) (ua ut : UserData) (ha : r.getUser uid = some ua)
    (ht : r.getUser p.id = some ut) (hs : net.swiped = true) (hr : net.read = true)
    (hl : uid ∈ ut.likedProfiles.getD []) :
    swipe net now serverNow uid p .right r
      = createMatch net now serverNow uid p (recordSwiped uid p.id r) := by
  rw [swipe_right_eq net now serverNow uid p r ua ha hs]
  obtain ⟨ut2, h2, hl2, _⟩ := getUser_recordSwiped_some uid p.id p.id r ut ht
  have hinc : likedIncludes ut2 uid = true := by
    rw [likedIncludes_congr ut ut2 uid hl2]; exact (likedIncludes_iff ut uid).2 hl
  simp [handleLike, readUser, hr, h2, hinc]

/-- A right swipe with all requests succeeding, on a target that does not list the actor,
only adds the actor to the target's `likedProfiles`. -/
theorem swipe_right_first (net : SwipeNet) (now serverNow : Nat) (uid : UserId)
    (p : Profile) (r : Remote) (ua ut : UserData) (ha : r.getUser uid = some ua)
    (ht : r.getUser p.id = some ut) (hs : net.swiped = true) (hr : net.read = true)
    (hk : net.like = true) (hl : uid ∉ ut.likedProfiles.getD []) :
    swipe net now serverNow uid p .right r
      = { recordSwiped uid p.id r with
          users := (modifyUser p.id
            (fun u => { u with likedProfiles := arrayUnion uid u.likedProfiles })
            (recordSwiped uid p.id r).users) } := by
  rw [swipe_right_eq net now serverNow uid p r ua ha hs]
  obtain ⟨ut2, h2, hl2, _⟩ := getUser_recordSwiped_some uid p.id p.id r ut ht
  have hinc : likedIncludes ut2 uid = false := by
    rw [likedIncludes_congr ut ut2 uid hl2]
    cases hc : likedIncludes ut uid
    · rfl
    · exact absurd ((likedIncludes_iff ut uid).1 hc) hl
  simp [handleLike, readUser, hr, h2, hinc, updateUser, hk]

theorem lookup_modify_some (w v : UserId) (f : UserData → UserData)
    (us : List (UserId × UserData)) (u : UserData) (h : us.lookup v = some u) :
    (modifyUser w f us).lookup v = some (if v = w then f u else u) := by
  rw [lookup_modifyUser, h]
  by_cases hv : v = w <;> simp [hv]

theorem mem_addMatchId (m : DocId) (u : UserData) : m ∈ (addMatchId m u).matchIds.getD [] :=
  mem_arrayUnion_self m u.matchIds

theorem updateUser_matchDocs (ok : Bool) (uid : UserId) (f : UserData → UserData)
    (r r1 : Remote) (h : updateUser ok uid f r = .ok r1) :
    r1.matchDocs = r.matchDocs ∧ r1.nextId = r.nextId := by
  unfold updateUser at h
  cases ok with
  | false => simp at h
  | true =>
    cases hu : r.getUser uid with
    | none => simp [hu] at h
    | some u =>
      simp only [hu, if_true] at h
      cases h
      exact ⟨rfl, rfl⟩

theorem updateUser_orKeep (ok : Bool) (uid : UserId) (f : UserData → UserData) (x : Remote) :
    (match updateUser ok uid f x with
      | .ok y => y
      | .error _ => x).matchDocs = x.matchDocs
    ∧ (match updateUser ok uid f x with
      | .ok y => y
      | .error _ => x).nextId = x.nextId := by
  cases h : updateUser ok uid f x with
  | error e => exact ⟨rfl, rfl⟩
  | ok y => exact updateUser_matchDocs _ _ _ _ _ h

theorem createMatch_matchDocs (net : SwipeNet) (now serverNow : Nat) (uid : UserId)
    (p : Profile) (r : Remote) :
    (createMatch net now serverNow uid p r).matchDocs = r.matchDocs
      ∨ (createMatch net now serverNow uid p r).matchDocs
          = r.matchDocs ++ [newMatch now serverNow uid p.id r] := by
  unfold createMatch addMatch
  cases net.add with
  | false => left; rfl
  | true =>
    right
    simp only [if_true]
    rw [(updateUser_orKeep _ _ _ _).1, (updateUser_orKeep _ _ _ _).1]
    rfl

theorem handleLike_matchDocs (net : SwipeNet) (now serverNow : Nat) (uid : UserId)
    (p : Profile) (r : Remote) :
    (handleLike net now serverNow uid p r).matchDocs = r.matchDocs
      ∨ (handleLike net now serverNow uid p r).matchDocs
          = r.matchDocs ++ [newMatch now serverNow uid p.id r] := by
  unfold handleLike
  cases readUser net.read p.id r with
  | error e => left; rfl
  | ok o =>
    cases o with
    | none => left; rfl
    | some d =>
      simp only []
      split_ifs
      · exact createMatch_matchDocs net now serverNow uid p r
      · left; exact (updateUser_orKeep _ _ _ _).1

theorem swipe_matchDocs (net : SwipeNet) (now serverNow : Nat) (uid : UserId)
    (p : Profile) (d : Direction) (r : Remote) :
    (swipe net now serverNow uid p d r).matchDocs = r.matchDocs
      ∨ (swipe net now serverNow uid p d r).matchDocs
          = r.matchDocs ++ [newMatch now serverNow uid p.id r] := by
  unfold swipe
  cases h : updateUser net.swiped uid
      (fun u => { u with swipedProfiles := arrayUnion p.id u.swipedProfiles }) r with
  | error e => left; rfl
  | ok r1 =>
    obtain ⟨hm, hn⟩ := updateUser_matchDocs _ _ _ _ _ h
    cases d with
    | left => left; exact hm
    | right =>
      simp only []
      have hnew : newMatch now serverNow uid p.id r1 = newMatch now serverNow uid p.id r := by
        simp [newMatch, hn]
      rcases handleLike_matchDocs net now serverNow uid p r1 with h1 | h1
      · left; rw [h1, hm]
      · right; rw [h1, hm, hnew]

theorem handleSwipe_matchDocs (net : SwipeNet) (now serverNow : Nat) (d : Direction)
    (s : SwipeScreen) (r : Remote) :
    (handleSwipe net now serverNow d s r).2.matchDocs = r.matchDocs
      ∨ ∃ m, (handleSwipe net now serverNow d s r).2.matchDocs = r.matchDocs ++ [m] := by
  unfold handleSwipe
  cases s.profiles.get? s.currentIndex with
  | none => left; rfl
  | some p =>
    rcases swipe_matchDocs net now serverNow s.uid p d r with h | h
    · left; exact h
    · right; exact ⟨_, h⟩

theorem runSwipes_matchDocs (evs : List SwipeEvent) (r : Remote) :
    ∃ added, (runSwipes evs r).matchDocs = r.matchDocs ++ added
      ∧ added.length ≤ evs.length := by
  induction evs generalizing r with
  | nil => exact ⟨[], by simp [runSwipes], le_refl _⟩
  | cons e es ih =>
    obtain ⟨added, h1, h2⟩ := ih (handleSwipe e.net e.now e.serverNow .right e.screen r).2
    have hrun : runSwipes (e :: es) r
        = runSwipes es (handleSwipe e.net e.now e.serverNow .right e.screen r).2 := rfl
    rw [hrun, h1]
    rcases handleSwipe_matchDocs e.net e.now e.serverNow .right e.screen r with h | ⟨m, h⟩
    · exact ⟨added, by rw [h], by simp only [List.length_cons]; omega⟩
    · exact ⟨m :: added, by rw [h]; simp, by simp only [List.length_cons]; omega⟩

theorem activePair_append (a b : UserId) (r r1 : Remote) (added : List MatchDoc)
    (h : r1.matchDocs = r.matchDocs ++ added) :
    (activePair a b r1).length ≤ (activePair a b r).length + added.length := by
  unfold activePair
  rw [h, List.filter_append, List.length_append]
  exact Nat.add_le_add_left (List.length_filter_le _ _) _

/-! ## The claims on the like/match engine -/

/-- C1 (evaluation at the failing input): user 1 swipes right on user 2 and then user 2
swipes right on user 1, every request succeeding; no match document exists afterwards and
both `matches` arrays are empty: each like was stored on the other user's document. -/
theorem C1_like_back_creates_no_match :
    (handleSwipe SwipeNet.allOk 10 10 .right screenB
        (handleSwipe SwipeNet.allOk 5 5 .right screenA twoUsers).2).2.matchDocs = []
      ∧ (handleSwipe SwipeNet.allOk 10 10 .right screenB
        (handleSwipe SwipeNet.allOk 5 5 .right screenA twoUsers).2).2.matchesOf 1 = []
      ∧ (handleSwipe SwipeNet.allOk 10 10 .right screenB
        (handleSwipe SwipeNet.allOk 5 5 .right screenA twoUsers).2).2.matchesOf 2 = []
      ∧ (handleSwipe SwipeNet.allOk 10 10 .right screenB
        (handleSwipe SwipeNet.allOk 5 5 .right screenA twoUsers).2).2.likedOf 1 = [2]
      ∧ (handleSwipe SwipeNet.allOk 10 10 .right screenB
        (handleSwipe SwipeNet.allOk 5 5 .right screenA twoUsers).2).2.likedOf 2 = [1] := by
  decide

/-- C2 (counterexample): three right swipes of user 1 on user 2 leave two active match
documents for the pair. -/
theorem C2_counterexample :
    ((activePair 1 2 (runSwipes
        [⟨SwipeNet.allOk, 5, 5, screenA⟩, ⟨SwipeNet.allOk, 6, 6, screenA⟩,
         ⟨SwipeNet.allOk, 7, 7, screenA⟩] twoUsers)).map fun m => m.id) = [0, 1] := by
  decide

/-- C2 (amended): right swipes applied one after another only append to the matches
collection, at most one document per swipe; so the number of active match documents of a
pair grows by at most the number of swipes. Nothing bounds it by one. -/
theorem C2_each_swipe_adds_at_most_one_match (a b : UserId) (evs : List SwipeEvent)
    (r : Remote) :
    (∃ added, (runSwipes evs r).matchDocs = r.matchDocs ++ added
        ∧ added.length ≤ evs.length)
      ∧ (activePair a b (runSwipes evs r)).length ≤ (activePair a b r).length + evs.length := by
  obtain ⟨added, h1, h2⟩ := runSwipes_matchDocs evs r
  exact ⟨⟨added, h1, h2⟩, le_trans (activePair_append a b r _ added h1) (by omega)⟩

/-- C3: a right swipe by the actor on an existing target whose `likedProfiles` contains the
actor, all requests succeeding, appends exactly one document to the matches collection,
with users `[actor, target]` and `isActive = true`, and its id is in the `matches` array
of both users afterwards. -/
theorem C3_reciprocal_swipe_creates_one_match (now serverNow : Nat) (s : SwipeScreen)
    (target : Profile) (r : Remote) (ua ut : UserData)
    (hcur : s.profiles.get? s.currentIndex = some target)
    (ha : r.getUser s.uid = some ua) (ht : r.getUser target.id = some ut)
    (hl : s.uid ∈ ut.likedProfiles.getD []) :
    ∃ m : MatchDoc,
      (handleSwipe SwipeNet.allOk now serverNow .right s r).2.matchDocs = r.matchDocs ++ [m]
      ∧ m.data.users = [s.uid, target.id] ∧ m.data.isActive = true
      ∧ m.id ∈ (handleSwipe SwipeNet.allOk now serverNow .right s r).2.matchesOf s.uid
      ∧ m.id ∈ (handleSwipe SwipeNet.allOk now serverNow .right s r).2.matchesOf target.id := by
  refine ⟨newMatch now serverNow s.uid target.id r, ?_⟩
  rw [handleSwipe_snd _ _ _ _ _ _ _ hcur,
    swipe_right_reciprocal _ now serverNow s.uid target r ua ut ha ht rfl rfl hl]
  obtain ⟨ua2, ha2, -, -⟩ := getUser_recordSwiped_some s.uid target.id s.uid r ua ha
  obtain ⟨ut2, ht2, -, -⟩ := getUser_recordSwiped_some s.uid target.id target.id r ut ht
  rw [createMatch_eq _ now serverNow s.uid target _ ua2 ut2 ha2 ht2]
  have hid : (recordSwiped s.uid target.id r).nextId = r.nextId := rfl
  have hua : (recordSwiped s.uid target.id r).users.lookup s.uid = some ua2 := ha2
  have hut : (recordSwiped s.uid target.id r).users.lookup target.id = some ut2 := ht2
  refine ⟨rfl, rfl, rfl, ?_, ?_⟩
  · simp only [SwipeNet.allOk, if_true, Remote.matchesOf, Remote.getUser, hid, newMatch]
    rw [lookup_modify_some _ _ _ _ _ (lookup_modify_some _ _ _ _ _ hua)]
    simp only [if_true]
    split_ifs
    · exact mem_addMatchId _ _
    · exact mem_addMatchId _ _
  · simp only [SwipeNet.allOk, if_true, Remote.matchesOf, Remote.getUser, hid, newMatch]
    rw [lookup_modify_some _ _ _ _ _ (lookup_modify_some _ _ _ _ _ hut)]
    simp only [if_true]
    exact mem_addMatchId _ _

/-- C3 at users 1 and 2, user 2 having liked user 1. -/
theorem C3_reciprocal_swipe_creates_one_match_witness :
    ∃ m : MatchDoc,
      (handleSwipe SwipeNet.allOk 5 6 .right screenA likedRemote).2.matchDocs
        = likedRemote.matchDocs ++ [m]
      ∧ m.data.users = [screenA.uid, 2] ∧ m.data.isActive = true
      ∧ m.id ∈ (handleSwipe SwipeNet.allOk 5 6 .right screenA likedRemote).2.matchesOf screenA.uid
      ∧ m.id ∈ (handleSwipe SwipeNet.allOk 5 6 .right screenA likedRemote).2.matchesOf 2 :=
  C3_reciprocal_swipe_creates_one_match 5 6 screenA ⟨2⟩ likedRemote {}
    { likedProfiles := some [1] } (by decide) (by decide) (by decide) (by decide)

/-- C4 (counterexample): user 2 lists user 1 in `likedProfiles`; user 1 swipes right on
user 2 and the match is created, yet user 1 is still in `likedProfiles` of user 2. -/
theorem C4_counterexample :
    ((handleSwipe SwipeNet.allOk 5 6 .right screenA likedRemote).2.matchDocs.map
        fun m => m.data.users) = [[1, 2]]
      ∧ ¬ (1 ∉ (handleSwipe SwipeNet.allOk 5 6 .right screenA likedRemote).2.likedOf 2) := by
  decide

theorem likedOf_eq_of_map (r r1 : Remote) (v : UserId)
    (h : (r1.getUser v).map (fun u => u.likedProfiles) = (r.getUser v).map fun u => u.likedProfiles) :
    r1.likedOf v = r.likedOf v := by
  unfold Remote.likedOf
  cases h1 : r1.getUser v <;> cases h2 : r.getUser v <;> simp [h1, h2] at h ⊢
  rw [h]

theorem createMatch_liked (net : SwipeNet) (now serverNow : Nat) (uid : UserId) (p : Profile)
    (r : Remote) (ua ut : UserData) (ha : r.getUser uid = some ua)
    (ht : r.getUser p.id = some ut) (v : UserId) :
    ((createMatch net now serverNow uid p r).getUser v).map (fun u => u.likedProfiles)
      = (r.getUser v).map fun u => u.likedProfiles := by
  rw [createMatch_eq net now serverNow uid p r ua ut ha ht]
  cases net.add <;> cases net.actorMatches <;> cases net.targetMatches <;>
    simp [Remote.getUser, lookup_modifyUser]
  all_goals split_ifs
  all_goals cases List.lookup v r.users
  all_goals simp [addMatchId]

/-- C4 (amended): a right swipe on a target whose `likedProfiles` contains the actor leaves
the target's `likedProfiles` as it was, whatever becomes of the match writes: the actor's
id stays in it. -/
theorem C4_like_is_kept_after_match (net : SwipeNet) (now serverNow : Nat) (s : SwipeScreen)
    (target : Profile) (r : Remote) (ua ut : UserData)
    (hcur : s.profiles.get? s.currentIndex = some target)
    (ha : r.getUser s.uid = some ua) (ht : r.getUser target.id = some ut)
    (hs : net.swiped = true) (hr : net.read = true)
    (hl : s.uid ∈ ut.likedProfiles.getD []) :
    (handleSwipe net now serverNow .right s r).2.likedOf target.id = r.likedOf target.id
      ∧ s.uid ∈ (handleSwipe net now serverNow .right s r).2.likedOf target.id := by
  have key : (handleSwipe net now serverNow .right s r).2.likedOf target.id
      = r.likedOf target.id := by
    rw [handleSwipe_snd _ _ _ _ _ _ _ hcur,
      swipe_right_reciprocal net now serverNow s.uid target r ua ut ha ht hs hr hl]
    obtain ⟨ua2, ha2, -, -⟩ := getUser_recordSwiped_some s.uid target.id s.uid r ua ha
    obtain ⟨ut2, ht2, -, -⟩ := getUser_recordSwiped_some s.uid target.id target.id r ut ht
    apply likedOf_eq_of_map
    rw [createMatch_liked net now serverNow s.uid target _ ua2 ut2 ha2 ht2,
      getUser_recordSwiped_liked]
  refine ⟨key, ?_⟩
  rw [key]
  simpa [Remote.likedOf, ht] using hl

/-- C4 (amended) at users 1 and 2, user 2 having liked user 1. -/
theorem C4_like_is_kept_after_match_witness :
    (handleSwipe SwipeNet.allOk 5 6 .right screenA likedRemote).2.likedOf 2
        = likedRemote.likedOf 2
      ∧ screenA.uid ∈ (handleSwipe SwipeNet.allOk 5 6 .right screenA likedRemote).2.likedOf 2 :=
  C4_like_is_kept_after_match SwipeNet.allOk 5 6 screenA ⟨2⟩ likedRemote {}
    { likedProfiles := some [1] } (by decide) (by decide) (by decide) rfl rfl (by decide)

/-- C5 (counterexample): the add and the actor's update succeed and the target's update
fails; the new match document exists and is in the `matches` array of user 1 but not of
user 2, which is neither all nor nothing. -/
theorem C5_counterexample :
    ¬ ((∃ m ∈ (handleSwipe { targetMatches := false } 5 6 .right screenA likedRemote).2.matchDocs,
          m ∉ likedRemote.matchDocs
          ∧ m.id ∈ (handleSwipe { targetMatches := false } 5 6 .right screenA likedRemote).2.matchesOf 1
          ∧ m.id ∈ (handleSwipe { targetMatches := false } 5 6 .right screenA likedRemote).2.matchesOf 2)
      ∨ ((handleSwipe { targetMatches := false } 5 6 .right screenA likedRemote).2.matchDocs
            = likedRemote.matchDocs
          ∧ (handleSwipe { targetMatches := false } 5 6 .right screenA likedRemote).2.matchesOf 1
            = likedRemote.matchesOf 1
          ∧ (handleSwipe { targetMatches := false } 5 6 .right screenA likedRemote).2.matchesOf 2
            = likedRemote.matchesOf 2)) := by
  decide

theorem createMatch_matchIds (net : SwipeNet) (now serverNow : Nat) (uid : UserId) (p : Profile)
    (r : Remote) (ua ut : UserData) (ha : r.getUser uid = some ua)
    (ht : r.getUser p.id = some ut) (hne : uid ≠ p.id) :
    ((createMatch net now serverNow uid p r).getUser uid).map (fun u => u.matchIds)
        = some (if net.add && net.actorMatches then arrayUnion r.nextId ua.matchIds
            else ua.matchIds)
      ∧ ((createMatch net now serverNow uid p r).getUser p.id).map (fun u => u.matchIds)
        = some (if net.add && net.targetMatches then arrayUnion r.nextId ut.matchIds
            else ut.matchIds)
      ∧ ∀ v, v ≠ uid → v ≠ p.id →
          (createMatch net now serverNow uid p r).getUser v = r.getUser v := by
  have ha2 : r.users.lookup uid = some ua := ha
  have ht2 : r.users.lookup p.id = some ut := ht
  have hne2 : ¬ p.id = uid := fun h => hne h.symm
  rw [createMatch_eq net now serverNow uid p r ua ut ha ht]
  refine ⟨?_, ?_, ?_⟩
  · cases net.add <;> cases net.actorMatches <;> cases net.targetMatches <;>
      simp [Remote.getUser, lookup_modifyUser, ha2, hne, addMatchId]
  · cases net.add <;> cases net.actorMatches <;> cases net.targetMatches <;>
      simp [Remote.getUser, lookup_modifyUser, ht2, hne2, addMatchId]
  · intro v hv1 hv2
    cases net.add <;> cases net.actorMatches <;> cases net.targetMatches <;>
      simp [Remote.getUser, lookup_modifyUser, hv1, hv2]

/-- C5 (amended): on a right swipe that detects reciprocity between two distinct users, the
three writes of `createMatch` apply one by one. If the add fails, no match document is
created and no `matches` array changes. If the add succeeds, the new document is in the
collection, and each user's `matches` array receives its id exactly when that user's own
update succeeds, otherwise that array is unchanged. -/
theorem C5_match_writes_apply_one_by_one (net : SwipeNet) (now serverNow : Nat)
    (s : SwipeScreen) (target : Profile) (r : Remote) (ua ut : UserData)
    (hcur : s.profiles.get? s.currentIndex = some target)
    (ha : r.getUser s.uid = some ua) (ht : r.getUser target.id = some ut)
    (hne : s.uid ≠ target.id) (hs : net.swiped = true) (hr : net.read = true)
    (hl : s.uid ∈ ut.likedProfiles.getD []) :
    (handleSwipe net now serverNow .right s r).2.matchDocs
        = (if net.add then r.matchDocs ++ [newMatch now serverNow s.uid target.id r]
            else r.matchDocs)
      ∧ ((handleSwipe net now serverNow .right s r).2.getUser s.uid).map (fun u => u.matchIds)
        = some (if net.add && net.actorMatches then arrayUnion r.nextId ua.matchIds
            else ua.matchIds)
      ∧ ((handleSwipe net now serverNow .right s r).2.getUser target.id).map
          (fun u => u.matchIds)
        = some (if net.add && net.targetMatches then arrayUnion r.nextId ut.matchIds
            else ut.matchIds) := by
  rw [handleSwipe_snd _ _ _ _ _ _ _ hcur,
    swipe_right_reciprocal net now serverNow s.uid target r ua ut ha ht hs hr hl]
  obtain ⟨ua2, ha2, -, hma⟩ := getUser_recordSwiped_some s.uid target.id s.uid r ua ha
  obtain ⟨ut2, ht2, -, hmt⟩ := getUser_recordSwiped_some s.uid target.id target.id r ut ht
  obtain ⟨h1, h2, -⟩ := createMatch_matchIds net now serverNow s.uid target
    (recordSwiped s.uid target.id r) ua2 ut2 ha2 ht2 hne
  have hid : (recordSwiped s.uid target.id r).nextId = r.nextId := rfl
  rw [hid, hma] at h1
  rw [hid, hmt] at h2
  refine ⟨?_, h1, h2⟩
  rw [createMatch_eq net now serverNow s.uid target _ ua2 ut2 ha2 ht2]
  cases net.add <;> rfl

/-- C5 (amended) where the add and the actor's update succeed and the target's fails. -/
theorem C5_match_writes_apply_one_by_one_witness :
    (handleSwipe { targetMatches := false } 5 6 .right screenA likedRemote).2.matchDocs
        = likedRemote.matchDocs ++ [newMatch 5 6 1 2 likedRemote]
      ∧ ((handleSwipe { targetMatches := false } 5 6 .right screenA likedRemote).2.getUser 1).map
          (fun u => u.matchIds) = some (some [0])
      ∧ ((handleSwipe { targetMatches := false } 5 6 .right screenA likedRemote).2.getUser 2).map
          (fun u => u.matchIds) = some none :=
  C5_match_writes_apply_one_by_one { targetMatches := false } 5 6 screenA ⟨2⟩ likedRemote {}
    { likedProfiles := some [1] } (by decide) (by decide) (by decide) (by decide) rfl rfl
    (by decide)

/-- C6: a right swipe by the actor on an existing target whose `likedProfiles` does not
contain the actor, all requests succeeding, makes the target's `likedProfiles` the old
list with the actor's id appended, creates no match document and changes no user's
`matches` array. -/
theorem C6_first_like_is_recorded (now serverNow : Nat) (s : SwipeScreen)
    (target : Profile) (r : Remote) (ua ut : UserData)
    (hcur : s.profiles.get? s.currentIndex = some target)
    (ha : r.getUser s.uid = some ua) (ht : r.getUser target.id = some ut)
    (hl : s.uid ∉ ut.likedProfiles.getD []) :
    ((handleSwipe SwipeNet.allOk now serverNow .right s r).2.getUser target.id).map
          (fun u => u.likedProfiles) = some (some (ut.likedProfiles.getD [] ++ [s.uid]))
      ∧ (handleSwipe SwipeNet.allOk now serverNow .right s r).2.matchDocs = r.matchDocs
      ∧ ∀ v, ((handleSwipe SwipeNet.allOk now serverNow .right s r).2.getUser v).map
          (fun u => u.matchIds) = (r.getUser v).map fun u => u.matchIds := by
  rw [handleSwipe_snd _ _ _ _ _ _ _ hcur,
    swipe_right_first SwipeNet.allOk now serverNow s.uid target r ua ut ha ht rfl rfl rfl hl]
  obtain ⟨ut2, ht2, hl2, -⟩ := getUser_recordSwiped_some s.uid target.id target.id r ut ht
  refine ⟨?_, rfl, ?_⟩
  · rw [getUser_modify]
    simp only [if_true, ht2, Option.map_some', hl2]
    cases hlp : ut.likedProfiles with
    | none => simp [arrayUnion]
    | some l =>
      have : s.uid ∉ l := by simpa [hlp] using hl
      simp [arrayUnion, this]
  · intro v
    rw [getUser_modify, ← getUser_recordSwiped_matchIds s.uid target.id v r]
    split_ifs
    · cases (recordSwiped s.uid target.id r).getUser v <;> simp
    · rfl

/-- C6 at users 1 and 2 without likes. -/
theorem C6_first_like_is_recorded_witness :
    ((handleSwipe SwipeNet.allOk 5 6 .right screenA twoUsers).2.getUser 2).map
          (fun u => u.likedProfiles) = some (some ([] ++ [screenA.uid]))
      ∧ (handleSwipe SwipeNet.allOk 5 6 .right screenA twoUsers).2.matchDocs = twoUsers.matchDocs
      ∧ ∀ v, ((handleSwipe SwipeNet.allOk 5 6 .right screenA twoUsers).2.getUser v).map
          (fun u => u.matchIds) = (twoUsers.getUser v).map fun u => u.matchIds :=
  C6_first_like_is_recorded 5 6 screenA ⟨2⟩ twoUsers {} {} (by decide) (by decide) (by decide)
    (by decide)

/-! ## The claims on the offline action queue -/

theorem saveAll_array (acts : List (Nat × Action)) (l : List Entry) :
    saveAll {} acts (some (.array l))
      = some (.array (l ++ acts.map fun ta => Entry.action (stamp ta.1 ta.2))) := by
  induction acts generalizing l with
  | nil => simp [saveAll]
  | cons ta rest ih =>
    have h : saveAll {} (ta :: rest) (some (.array l))
        = saveAll {} rest (some (.array (l ++ [Entry.action (stamp ta.1 ta.2)]))) := rfl
    rw [h, ih]
    simp

theorem runEntries_allOk (i : Nat) (es : List Entry) (r : Remote) :
    runEntries (fun _ => true) i es r = es.foldl (fun r e => tryExecute true e r) r := by
  induction es generalizing i r with
  | nil => rfl
  | cons e es ih => simp [runEntries, ih]

/-- C7: actions saved one after another onto an empty persisted queue are stored, stamped,
in the order of saving; a following `syncPendingActions` runs its loop over exactly that
list, which, when every execution succeeds, is `executeAction` on each of them one at a
time in that order, and it leaves the queue empty (also when nothing was saved); three
`send_message` actions add their three messages to the match in the original order. -/
theorem C7_queue_is_fifo (t : Nat) (a : Action) (rest : List (Nat × Action)) (r : Remote)
    (net : Nat → Bool) (t1 t2 t3 : Nat) (mid : DocId) (m1 m2 m3 : MessageData) :
    saveAll {} ((t, a) :: rest) none
        = some (.array (((t, a) :: rest).map fun ta => Entry.action (stamp ta.1 ta.2)))
      ∧ syncPendingActions {} net (saveAll {} ((t, a) :: rest) none) r
        = (none, runEntries net 0
            (((t, a) :: rest).map fun ta => Entry.action (stamp ta.1 ta.2)) r)
      ∧ syncPendingActions {} (fun _ => true) (saveAll {} ((t, a) :: rest) none) r
        = (none, (((t, a) :: rest).map fun ta => Entry.action (stamp ta.1 ta.2)).foldl
            (fun r e => tryExecute true e r) r)
      ∧ syncPendingActions {} (fun _ => true) (saveAll {} [] none) r = (none, r)
      ∧ syncPendingActions {} (fun _ => true)
          (saveAll {} [(t1, sendMessageAction mid m1), (t2, sendMessageAction mid m2),
            (t3, sendMessageAction mid m3)] none) r
        = (none, { r with
            messages := r.messages
              ++ [⟨mid, r.nextId, m1⟩, ⟨mid, r.nextId + 1, m2⟩, ⟨mid, r.nextId + 2, m3⟩]
            nextId := r.nextId + 3 }) := by
  have hsave : saveAll {} ((t, a) :: rest) none
      = some (.array (((t, a) :: rest).map fun ta => Entry.action (stamp ta.1 ta.2))) := by
    have h : saveAll {} ((t, a) :: rest) none
        = saveAll {} rest (some (.array [Entry.action (stamp t a)])) := rfl
    rw [h, saveAll_array]
    simp
  refine ⟨hsave, ?_, ?_, rfl, ?_⟩
  · rw [hsave]
    simp only [syncPendingActions, if_true]
  · rw [hsave]
    simp only [syncPendingActions, if_true, runEntries_allOk]
  · simp [saveAll, saveOfflineAction, saveOfflineActionTry, syncPendingActions, runEntries,
      tryExecute, executeAction, sendMessageAction, stamp, addMessage]

/-- C8 (evaluation at the failing input): with working local storage the persisted queue
is removed whatever the executions did; when the queue holds one `send_message` action and
its execution fails, the queue is gone although the remote state is unchanged: the action
is dropped without having been applied. -/
theorem C8_failed_action_is_dropped (actions : List Entry) (net : Nat → Bool)
    (mid : DocId) (m : MessageData) (r : Remote) :
    (syncPendingActions {} net (some (.array actions)) r).1 = none
      ∧ syncPendingActions {} (fun _ => false)
          (some (.array [.action (sendMessageAction mid m)])) r = (none, r) :=
  ⟨rfl, rfl⟩

/-- C9 (counterexample): the write to local storage fails; `saveOfflineAction` returns
normally and the persisted queue does not end with the action. -/
theorem C9_counterexample :
    (saveOfflineAction { write := false } 7 (sendMessageAction 3 ⟨"hi", 1, none⟩) none).2
        = .ok ()
      ∧ ¬ endsWith
          (saveOfflineAction { write := false } 7 (sendMessageAction 3 ⟨"hi", 1, none⟩) none).1
          (stamp 7 (sendMessageAction 3 ⟨"hi", 1, none⟩)) := by
  refine ⟨rfl, ?_⟩
  rintro ⟨l, h⟩
  have h2 : (saveOfflineAction { write := false } 7
      (sendMessageAction 3 ⟨"hi", 1, none⟩) none).1 = none := rfl
  rw [h2] at h
  cases h

/-- C9 (amended): `saveOfflineAction` always returns normally. When the read and the write
succeed and the stored value is absent, empty or an array, the persisted list is the old
list with the stamped action appended; when the read or the write fails, or the stored
value does not parse to an array, the stored value is left as it was. -/
theorem C9_save_returns_normally (sn : StorageNet) (now : Nat) (a : Action)
    (st : Option Stored) :
    (saveOfflineAction sn now a st).2 = .ok ()
      ∧ (∀ l, sn.read = true → sn.write = true → pendingList st = some l →
          (saveOfflineAction sn now a st).1 = some (.array (l ++ [.action (stamp now a)])))
      ∧ (sn.read = false ∨ sn.write = false ∨ pendingList st = none →
          (saveOfflineAction sn now a st).1 = st) := by
  refine ⟨?_, ?_, ?_⟩
  · unfold saveOfflineAction
    cases saveOfflineActionTry sn now a st <;> rfl
  · intro l hr hw hp
    rcases st with _ | (_ | _ | _ | _ | l2) <;>
      simp [pendingList] at hp <;>
      simp [saveOfflineAction, saveOfflineActionTry, hr, hw, ← hp]
  · intro h
    rcases st with _ | (_ | _ | _ | _ | l2) <;>
      cases hr : sn.read <;> cases hw : sn.write <;>
      simp [pendingList, hr, hw] at h <;>
      simp [saveOfflineAction, saveOfflineActionTry, hr, hw]

/-- C9 (amended) at a working store with an empty queue and at a failing write. -/
theorem C9_save_returns_normally_witness :
    (saveOfflineAction {} 7 (sendMessageAction 3 ⟨"hi", 1, none⟩) none).1
        = some (.array ([] ++ [.action (stamp 7 (sendMessageAction 3 ⟨"hi", 1, none⟩))]))
      ∧ (saveOfflineAction { write := false } 7 (sendMessageAction 3 ⟨"hi", 1, none⟩) none).1
        = none :=
  ⟨(C9_save_returns_normally {} 7 (sendMessageAction 3 ⟨"hi", 1, none⟩) none).2.1 [] rfl rfl rfl,
    (C9_save_returns_normally { write := false } 7 (sendMessageAction 3 ⟨"hi", 1, none⟩)
      none).2.2 (Or.inr (Or.inl rfl))⟩

/-- C10 (counterexample): executing one `send_message` action twice leaves two message
documents, executing it once leaves one. -/
theorem C10_counterexample :
    ∃ r1 r2, executeAction true (sendMessageAction 3 ⟨"hi", 1, none⟩) twoUsers = .ok r1
      ∧ executeAction true (sendMessageAction 3 ⟨"hi", 1, none⟩) r1 = .ok r2
      ∧ r2 ≠ r1 ∧ r1.messages.length = 1 ∧ r2.messages.length = 2 :=
  ⟨_, _, rfl, rfl, by decide, rfl, rfl⟩

theorem UserData.update_update (data u : UserData) :
    data.update (data.update u) = data.update u := by
  obtain ⟨d1, d2, d3, d4, d5, d6, d7, d8⟩ := data
  cases d1 <;> cases d2 <;> cases d3 <;> cases d4 <;> cases d5 <;> cases d6 <;> cases d7 <;>
    cases d8 <;> rfl

theorem modifyUser_idem (uid : UserId) (f : UserData → UserData)
    (hf : ∀ u, f (f u) = f u) (us : List (UserId × UserData)) :
    modifyUser uid f (modifyUser uid f us) = modifyUser uid f us := by
  unfold modifyUser
  rw [List.map_map]
  apply List.map_congr_left
  intro e _
  by_cases h : e.1 = uid <;> simp [h, hf]

/-- C10 (amended): replay is idempotent for `update_profile` and for actions of an unknown
type only: a second successful execution of an `update_profile` action leaves the remote
state of the first. Every successful execution of a `send_message`, `create_match` or
`report_user` action adds one more document, so two executions add two. -/
theorem C10_only_update_profile_replays (a : Action) (r r1 : Remote)
    (h1 : executeAction true a r = .ok r1) :
    (a.type ≠ some .send_message → a.type ≠ some .create_match → a.type ≠ some .report_user →
        executeAction true a r1 = .ok r1)
      ∧ (a.type = some .send_message →
          ∃ r2, executeAction true a r1 = .ok r2
            ∧ r2.messages.length = r.messages.length + 2)
      ∧ (a.type = some .create_match →
          ∃ r2, executeAction true a r1 = .ok r2
            ∧ r2.matchDocs.length = r.matchDocs.length + 2)
      ∧ (a.type = some .report_user →
          ∃ r2, executeAction true a r1 = .ok r2
            ∧ r2.reports.length = r.reports.length + 2) := by
  refine ⟨?_, ?_, ?_, ?_⟩
  · intro n1 n2 n3
    unfold executeAction at h1 ⊢
    cases ht : a.type with
    | none => simp only [ht] at h1 ⊢
    | some ty =>
      cases ty with
      | send_message => exact absurd ht n1
      | create_match => exact absurd ht n2
      | report_user => exact absurd ht n3
      | other n => simp only [ht] at h1 ⊢
      | update_profile =>
        simp only [ht] at h1 ⊢
        cases hu : a.userId with
        | none => cases hd : a.data <;> simp [hu, hd] at h1
        | some uid =>
          cases hd : a.data with
          | none => simp [hu, hd] at h1
          | some data =>
            simp only [hu, hd] at h1 ⊢
            unfold updateUser at h1 ⊢
            cases hg : r.getUser uid with
            | none => simp [hg] at h1
            | some u =>
              simp only [hg, if_true] at h1
              cases h1
              have hg2 : ({ r with users := modifyUser uid data.update r.users } : Remote).getUser
                  uid = some (data.update u) := by
                rw [getUser_modify, hg]; simp
              simp only [hg2, if_true, modifyUser_idem uid data.update
                (UserData.update_update data) r.users]
  · intro ht
    unfold executeAction at h1 ⊢
    simp only [ht] at h1 ⊢
    cases hm : a.messageData with
    | none => simp [hm] at h1
    | some m =>
      simp only [hm] at h1 ⊢
      cases hid : a.matchId <;> simp only [addMessage, hid, if_true] at h1 ⊢ <;>
        cases h1 <;> exact ⟨_, rfl, by simp⟩
  · intro ht
    unfold executeAction at h1 ⊢
    simp only [ht] at h1 ⊢
    cases hm : a.matchData with
    | none => simp [hm] at h1
    | some d =>
      simp only [hm, addMatch, if_true] at h1 ⊢
      cases h1
      exact ⟨_, rfl, by simp⟩
  · intro ht
    unfold executeAction at h1 ⊢
    simp only [ht] at h1 ⊢
    cases hm : a.reportData with
    | none => simp [hm] at h1
    | some d =>
      simp only [hm, addReport, if_true] at h1 ⊢
      cases h1
      exact ⟨_, rfl, by simp⟩

/-- C10 (amended) at a `send_message` action, whose second execution adds a second
message, and at an `update_profile` action, whose second execution changes nothing. -/
theorem C10_only_update_profile_replays_witness :
    (∃ r2, executeAction true (sendMessageAction 3 ⟨"hi", 1, none⟩)
          { twoUsers with messages := [⟨3, 0, ⟨"hi", 1, none⟩⟩], nextId := 1 } = .ok r2
        ∧ r2.messages.length = twoUsers.messages.length + 2)
      ∧ executeAction true
          { type := some .update_profile, userId := some 1, data := some { isActive := some true } }
          { twoUsers with users := [(1, { isActive := some true }), (2, {})] }
        = .ok { twoUsers with users := [(1, { isActive := some true }), (2, {})] } :=
  ⟨(C10_only_update_profile_replays (sendMessageAction 3 ⟨"hi", 1, none⟩) twoUsers
      { twoUsers with messages := [⟨3, 0, ⟨"hi", 1, none⟩⟩], nextId := 1 } rfl).2.1 rfl,
    (C10_only_update_profile_replays
      { type := some .update_profile, userId := some 1, data := some { isActive := some true } }
      twoUsers { twoUsers with users := [(1, { isActive := some true }), (2, {})] } rfl).1
      (by decide) (by decide) (by decide)⟩

/-! ## The claims on corrupt queues, reconnection and retry -/

/-- C11 (counterexample): the stored value is not valid JSON; after `saveOfflineAction` the
persisted value is not the one-element list holding the stamped action. -/
theorem C11_counterexample :
    ¬ ((saveOfflineAction {} 7 (sendMessageAction 3 ⟨"hi", 1, none⟩) (some .invalid)).1
        = some (.array [.action (stamp 7 (sendMessageAction 3 ⟨"hi", 1, none⟩))])) := by
  decide

/-- C11 (amended): when the stored `pending_actions` value is not valid JSON,
`saveOfflineAction` leaves it as it is and returns normally: `JSON.parse` throws, the
`catch` logs, and the action is not persisted. -/
theorem C11_corrupt_queue_is_left_alone (sn : StorageNet) (now : Nat) (a : Action) :
    saveOfflineAction sn now a (some .invalid) = (some .invalid, .ok ()) := by
  unfold saveOfflineAction saveOfflineActionTry
  cases sn.read <;> rfl

theorem syncPendingActionsCall_fst (sn : StorageNet) (net : Nat → Bool) (st : Option Stored)
    (r : Remote) :
    (syncPendingActionsCall sn net st r).1 = syncPendingActions sn net st r := by
  unfold syncPendingActionsCall syncPendingActionsTry syncPendingActions
  cases sn.read <;> cases sn.remove <;>
    rcases st with _ | (_ | _ | _ | _ | l) <;> rfl

/-- C12: whatever is stored under `pending_actions`, whatever the storage calls and the
remote writes do, `syncPendingActions` and `syncOfflineData` complete normally; with a
stored value that is not valid JSON `syncPendingActions` throws inside its `try` block
before the loop, and the remote state and the stored value are left as they were. -/
theorem C12_sync_never_throws (isOnline : Bool) (sn : StorageNet) (net : Nat → Bool)
    (analytics cleanup : Except JsError Unit) (st : Option Stored) (r : Remote) :
    (syncPendingActionsCall sn net st r).2 = .ok ()
      ∧ (syncOfflineData isOnline sn net analytics cleanup st r).2 = .ok ()
      ∧ (syncPendingActionsTry sn net (some .invalid) r).1
          = .error (if sn.read then JsError.syntaxError else JsError.storage)
      ∧ syncPendingActions sn net (some .invalid) r = (some .invalid, r)
      ∧ (syncOfflineData isOnline sn net analytics cleanup (some .invalid) r).1
          = (some .invalid, r) := by
  refine ⟨?_, ?_, ?_, ?_, ?_⟩
  · unfold syncPendingActionsCall
    rcases h : syncPendingActionsTry sn net st r with ⟨x | x, r1⟩ <;> rfl
  · unfold syncOfflineData
    cases isOnline
    · rfl
    · simp only [if_true]
      rcases h : syncPendingActionsCall sn net st r with ⟨x, e | u⟩
      · rfl
      · rcases analytics with e1 | u1
        · rfl
        · rcases cleanup with e2 | u2 <;> rfl
  · unfold syncPendingActionsTry
    cases sn.read <;> rfl
  · unfold syncPendingActions
    cases sn.read <;> rfl
  · unfold syncOfflineData syncPendingActionsCall syncPendingActionsTry
    cases isOnline <;> cases sn.read <;> rcases analytics with e1 | u1 <;>
      rcases cleanup with e2 | u2 <;> rfl

theorem deliver_syncCalls (events : List Bool) (s : OfflineService) :
    (deliver events s).syncCalls = s.syncCalls + offlineToOnline s.isOnline events := by
  induction events generalizing s with
  | nil => rfl
  | cons e es ih =>
    have hstep : deliver (e :: es) s = deliver es (networkListener e s) := rfl
    have hon : (networkListener e s).isOnline = e := by
      unfold networkListener
      cases s.isOnline <;> cases e <;> rfl
    have hcalls : (networkListener e s).syncCalls
        = s.syncCalls + (if s.isOnline = false ∧ e = true then 1 else 0) := by
      unfold networkListener
      cases s.isOnline <;> cases e <;> simp
    rw [hstep, ih (networkListener e s), hon, hcalls]
    simp only [offlineToOnline]
    omega

/-- C13: starting from `isOnline = true`, after any finite sequence of connectivity events
the number of calls of `syncOfflineData` made by the listener equals the number of
offline-to-online transitions of the sequence. -/
theorem C13_one_sync_per_reconnect (events : List Bool) :
    (deliver events {}).syncCalls = offlineToOnline true events := by
  have h := deliver_syncCalls events {}
  simpa using h

theorem retryLoop_waits {ε α : Type} (operation : Nat → Except ε α) (maxRetries : Int)
    (delay : Nat) :
    ∀ (n i : Nat) (lastError : Option ε) (waits : List Nat), i + n = maxRetries.toNat →
      ∃ k, k ≤ n - 1 ∧ (retryLoop operation maxRetries delay n i lastError waits).waits
        = waits ++ (List.range' i k).map fun j => delay * 2 ^ j := by
  intro n
  induction n with
  | zero => intro i lastError waits _; exact ⟨0, le_refl _, by simp [retryLoop]⟩
  | succ n ih =>
    intro i lastError waits hin
    unfold retryLoop
    cases operation i with
    | ok v => exact ⟨0, Nat.zero_le _, by simp⟩
    | error e =>
      simp only []
      have hM : maxRetries = ((i + (n + 1) : Nat) : Int) := by
        rw [hin]; exact (Int.toNat_of_nonneg (by omega)).symm
      by_cases hn : n = 0
      · subst hn
        have hc : ¬ ((i : Int) < maxRetries - 1) := by rw [hM]; push_cast; omega
        rw [if_neg hc]
        exact ⟨0, Nat.zero_le _, by simp [retryLoop]⟩
      · have hc : (i : Int) < maxRetries - 1 := by rw [hM]; push_cast; omega
        rw [if_pos hc]
        obtain ⟨k, hk, hw⟩ := ih (i + 1) (some e) (waits ++ [delay * 2 ^ i]) (by omega)
        refine ⟨k + 1, by omega, ?_⟩
        rw [hw, List.range'_succ, List.map_cons, List.append_assoc]
        rfl

theorem retryLoop_waits_fail {ε α : Type} (e : ε) (maxRetries : Int) (delay : Nat) :
    ∀ (n i : Nat) (lastError : Option ε) (waits : List Nat), i + n = maxRetries.toNat →
      (retryLoop (fun _ => (Except.error e : Except ε α)) maxRetries delay n i lastError
          waits).waits
        = waits ++ (List.range' i (n - 1)).map fun j => delay * 2 ^ j := by
  intro n
  induction n with
  | zero => intro i lastError waits _; simp [retryLoop]
  | succ n ih =>
    intro i lastError waits hin
    unfold retryLoop
    simp only []
    have hM : maxRetries = ((i + (n + 1) : Nat) : Int) := by
      rw [hin]; exact (Int.toNat_of_nonneg (by omega)).symm
    by_cases hn : n = 0
    · subst hn
      have hc : ¬ ((i : Int) < maxRetries - 1) := by rw [hM]; push_cast; omega
      rw [if_neg hc]
      simp [retryLoop]
    · have hc : (i : Int) < maxRetries - 1 := by rw [hM]; push_cast; omega
      rw [if_pos hc, ih (i + 1) (some e) (waits ++ [delay * 2 ^ i]) (by omega)]
      obtain ⟨m, rfl⟩ : ∃ m, n = m + 1 := ⟨n - 1, by omega⟩
      simp [List.range'_succ]

theorem retryOperation_waits_fail {ε α : Type} (e : ε) (maxRetries : Int) (delay : Nat) :
    (retryOperation (fun _ => (Except.error e : Except ε α)) maxRetries delay).waits
      = (List.range (maxRetries.toNat - 1)).map fun j => delay * 2 ^ j := by
  unfold retryOperation
  rw [retryLoop_waits_fail e maxRetries delay maxRetries.toNat 0 none [] (by omega)]
  simp [List.range_eq_range']

/-- C14 (counterexample): with base delay 1000 no bound holds for all waits: for every
bound there is a value of `maxRetries` whose all-failing run schedules a longer wait. -/
theorem C14_counterexample :
    ¬ ∃ cap : Nat, ∀ maxRetries : Int,
        ∀ w ∈ (retryOperation (fun _ => (Except.error () : Except Unit Unit)) maxRetries
          1000).waits, w ≤ cap := by
  rintro ⟨cap, h⟩
  have hw := h ((cap + 2 : Nat) : Int) (1000 * 2 ^ cap) (by
    rw [retryOperation_waits_fail]
    simp only [Int.toNat_ofNat, List.mem_map, List.mem_range]
    exact ⟨cap, by omega, rfl⟩)
  have h2 : cap < 2 ^ cap := Nat.lt_two_pow cap
  omega

/-- C14 (amended): the waits of `retryOperation` are `delay * 2 ^ i` for `i = 0, 1, ...`
in order, at most `maxRetries - 1` of them and exactly that many when every attempt fails;
they are not capped: for a positive base delay and any bound, some `maxRetries` makes an
all-failing run wait longer than the bound. -/
theorem C14_backoff_doubles_without_cap {ε α : Type} (operation : Nat → Except ε α) (e : ε)
    (maxRetries : Int) (delay bound : Nat) :
    (∃ k, k ≤ maxRetries.toNat - 1 ∧ (retryOperation operation maxRetries delay).waits
        = (List.range k).map fun i => delay * 2 ^ i)
      ∧ (retryOperation (fun _ => (Except.error e : Except ε α)) maxRetries delay).waits
        = (List.range (maxRetries.toNat - 1)).map (fun i => delay * 2 ^ i)
      ∧ ∃ m : Int, ∃ w ∈ (retryOperation (fun _ => (Except.error e : Except ε α)) m
          (delay + 1)).waits, bound < w := by
  refine ⟨?_, retryOperation_waits_fail e maxRetries delay, ?_⟩
  · obtain ⟨k, hk, hw⟩ := retryLoop_waits operation maxRetries delay maxRetries.toNat 0 none []
      (by omega)
    exact ⟨k, hk, by rw [retryOperation, hw]; simp [List.range_eq_range']⟩
  · refine ⟨((bound + 2 : Nat) : Int), (delay + 1) * 2 ^ bound, ?_, ?_⟩
    · rw [retryOperation_waits_fail]
      simp only [Int.toNat_ofNat, List.mem_map, List.mem_range]
      exact ⟨bound, by omega, rfl⟩
    · have h2 : bound < 2 ^ bound := Nat.lt_two_pow bound
      calc bound < 2 ^ bound := h2
        _ ≤ (delay + 1) * 2 ^ bound := Nat.le_mul_of_pos_left _ (by omega)

/-! ## The claims on expiry, unmatch and block -/

theorem append_m_left_ne (s : String) : s ++ "m left" ≠ "Expired" := by
  intro h
  have h2 := congrArg (fun t => t.data.reverse) h
  simp only [String.data_append, List.reverse_append] at h2
  have h3 : "m left".data.reverse = ['t', 'f', 'e', 'l', ' ', 'm'] := rfl
  have h4 : "Expired".data.reverse = ['d', 'e', 'r', 'i', 'p', 'x', 'E'] := rfl
  rw [h3, h4] at h2
  simp at h2

theorem timeLeftLabel_ne (diff : Int) : timeLeftLabel diff ≠ "Expired" := by
  unfold timeLeftLabel
  simp only []
  split_ifs
  · exact append_m_left_ne _
  · exact append_m_left_ne _

theorem timeLeftLabel_left (diff : Int) : ∃ p : String, timeLeftLabel diff = p ++ " left" := by
  have hm : ∀ s : String, s ++ "m left" = (s ++ "m") ++ " left" := by
    intro s
    rw [String.append_assoc]
    rfl
  unfold timeLeftLabel
  simp only []
  split_ifs
  · exact ⟨_, hm _⟩
  · exact ⟨_, hm _⟩

theorem formatTimeRemaining_expired (expiresAt now : Nat) :
    formatTimeRemaining expiresAt now = "Expired" ↔ (expiresAt : Int) - (now : Int) ≤ 0 := by
  unfold formatTimeRemaining
  simp only []
  split_ifs with h
  · exact ⟨fun _ => h, fun _ => rfl⟩
  · exact ⟨fun hh => absurd hh (timeLeftLabel_ne _), fun hh => absurd hh h⟩

/-- C15: `formatTimeRemaining` and `updateTimeRemaining` (for a loaded match) report
`Expired` exactly when `expiresAt - now <= 0`; otherwise the text ends in ` left`. -/
theorem C15_expired_iff_no_time_left (expiresAt now : Nat) (m : MatchData) (shown : String) :
    (formatTimeRemaining expiresAt now = "Expired" ↔ (expiresAt : Int) - (now : Int) ≤ 0)
      ∧ (updateTimeRemaining (some m) now shown = "Expired"
          ↔ (m.expiresAt : Int) - (now : Int) ≤ 0)
      ∧ ((expiresAt : Int) - (now : Int) ≤ 0
          ∨ ∃ p : String, formatTimeRemaining expiresAt now = p ++ " left")
      ∧ ((m.expiresAt : Int) - (now : Int) ≤ 0
          ∨ ∃ p : String, updateTimeRemaining (some m) now shown = p ++ " left") := by
  have hu : updateTimeRemaining (some m) now shown = formatTimeRemaining m.expiresAt now := rfl
  have hl : ∀ e : Nat, (e : Int) - (now : Int) ≤ 0
      ∨ ∃ p : String, formatTimeRemaining e now = p ++ " left" := by
    intro e
    by_cases h : (e : Int) - (now : Int) ≤ 0
    · exact Or.inl h
    · right
      unfold formatTimeRemaining
      simp only [h, if_false]
      exact timeLeftLabel_left _
  refine ⟨formatTimeRemaining_expired expiresAt now, ?_, hl expiresAt, ?_⟩
  · rw [hu]; exact formatTimeRemaining_expired m.expiresAt now
  · rw [hu]; exact hl m.expiresAt

/-- C16: once `formatTimeRemaining` reports `Expired` at an instant, it reports `Expired`
at every later instant. -/
theorem C16_expired_stays_expired (expiresAt t1 t2 : Nat) (h : t1 < t2)
    (he : formatTimeRemaining expiresAt t1 = "Expired") :
    formatTimeRemaining expiresAt t2 = "Expired" := by
  rw [formatTimeRemaining_expired] at he ⊢
  omega

/-- C16 at a match expiring at 1000, seen at 1000 and at 1001. -/
theorem C16_expired_stays_expired_witness :
    1000 < 1001 ∧ formatTimeRemaining 1000 1000 = "Expired"
      ∧ formatTimeRemaining 1000 1001 = "Expired" :=
  ⟨by decide, by decide, C16_expired_stays_expired 1000 1000 1001 (by decide) (by decide)⟩

/-- C17 (evaluation): whenever the add succeeds, the match document `createMatch` appends
expires 86,400,000 ms after `Date.now()`; nothing in the call depends on a premium status,
so a premium user gets 24 hours as well, not 172,800,000 ms. -/
theorem C17_expiry_is_always_24h (net : SwipeNet) (now serverNow : Nat) (uid : UserId)
    (p : Profile) (r : Remote) :
    ((createMatch { net with add := true } now serverNow uid p r).matchDocs.map
        fun m => m.data.expiresAt)
      = (r.matchDocs.map fun m => m.data.expiresAt) ++ [now + 86400000]
      ∧ now + 86400000 ≠ now + 172800000 := by
  refine ⟨?_, by omega⟩
  unfold createMatch addMatch
  simp only [if_true]
  rw [(updateUser_orKeep _ _ _ _).1, (updateUser_orKeep _ _ _ _).1]
  simp [matchTTL]

/-- C18 (evaluation at the failing input): the chat of user 1 loads match 0, which
expired at 1000, at time 5000. `timeRemaining` is still the initial empty text: the call
of `updateTimeRemaining` at the end of `loadMatchData` and the timer both run the function
of the first render, which sees no match. `onSend` at 5500, and again after a timer tick
at 6000, adds the message and updates `lastMessage` and `lastMessageAt`. -/
theorem C18_message_sent_after_expiry :
    (loadMatchData true true 5000 chatMounted matchedRemote).loaded = matchedRemote.getMatch 0
      ∧ (matchedRemote.getMatch 0).map (fun d => decide (d.expiresAt ≤ 5000)) = some true
      ∧ (loadMatchData true true 5000 chatMounted matchedRemote).timeRemaining = ""
      ∧ (onSend true true 5500 ⟨"hi", 1, none⟩
          (loadMatchData true true 5000 chatMounted matchedRemote) matchedRemote).messages
        = [⟨0, 1, ⟨"hi", 1, some 5500⟩⟩]
      ∧ ((onSend true true 5500 ⟨"hi", 1, none⟩
          (loadMatchData true true 5000 chatMounted matchedRemote) matchedRemote).getMatch 0).map
            (fun d => (d.lastMessage, d.lastMessageAt))
        = some (some "hi", some 5500)
      ∧ (timerTick chatMounted 6000
          (loadMatchData true true 5000 chatMounted matchedRemote)).timeRemaining = ""
      ∧ (onSend true true 7000 ⟨"hi", 1, none⟩
          (timerTick chatMounted 6000 (loadMatchData true true 5000 chatMounted matchedRemote))
          matchedRemote).messages = [⟨0, 1, ⟨"hi", 1, some 7000⟩⟩] := by
  decide

/-- C19 (counterexample): user 1 unmatches match 0 shared with user 2; the match is
inactive and gone from the `matches` array of user 1, but still in that of user 2. -/
theorem C19_counterexample :
    ¬ (((handleUnmatch true true 0 1 matchedRemote).getMatch 0).map (fun d => d.isActive)
          = some false
        ∧ 0 ∉ (handleUnmatch true true 0 1 matchedRemote).matchesOf 1
        ∧ 0 ∉ (handleUnmatch true true 0 1 matchedRemote).matchesOf 2) := by
  decide

theorem find_map_sameId (matchId : DocId) (g : MatchDoc → MatchDoc)
    (hg : ∀ m, (g m).id = m.id) (l : List MatchDoc) :
    (l.map g).find? (fun m => decide (m.id = matchId))
      = (l.find? fun m => decide (m.id = matchId)).map g := by
  induction l with
  | nil => rfl
  | cons a l ih =>
    by_cases h : a.id = matchId
    · simp [List.find?, hg, h]
    · simp [List.find?, hg, h, ih]

theorem updateMatch_ok (matchId : DocId) (f : MatchData → MatchData) (r : Remote)
    (d : MatchData) (h : r.getMatch matchId = some d) :
    updateMatch true matchId f r
      = .ok { r with
              matchDocs := r.matchDocs.map fun m =>
                if m.id = matchId then { m with data := f m.data } else m } := by
  simp [updateMatch, h]

theorem getMatch_update (matchId : DocId) (f : MatchData → MatchData) (r : Remote)
    (d : MatchData) (h : r.getMatch matchId = some d) (us : List (UserId × UserData)) :
    ({ r with
        users := us
        matchDocs := r.matchDocs.map fun m =>
          if m.id = matchId then { m with data := f m.data } else m } : Remote).getMatch matchId
      = some (f d) := by
  unfold Remote.getMatch at h ⊢
  simp only []
  rw [find_map_sameId matchId _ (by intro m; split_ifs <;> rfl)]
  cases hf : r.matchDocs.find? (fun m => decide (m.id = matchId)) with
  | none => simp [hf] at h
  | some m0 =>
    have hid : m0.id = matchId := by simpa using List.find?_some hf
    simp only [hf, Option.map_some', Option.some.injEq] at h
    simp [hid, h]

theorem not_mem_arrayRemove {α : Type} [DecidableEq α] (x : α) (o : Option (List α)) :
    x ∉ (arrayRemove x o).getD [] := by
  cases o with
  | none => simp [arrayRemove]
  | some l => simp [arrayRemove]

/-- C19 (amended): after the user `uid` confirms an unmatch of an existing match, both
writes succeeding, the match document has `isActive = false` and its id is no longer in
the `matches` array of `uid`; the document of every other user, the other participant
included, is unchanged, so that user's `matches` array still holds the id. -/
theorem C19_unmatch_updates_own_side_only (matchId : DocId) (uid : UserId) (r : Remote)
    (d : MatchData) (u : UserData) (hm : r.getMatch matchId = some d)
    (hu : r.getUser uid = some u) :
    (handleUnmatch true true matchId uid r).getMatch matchId = some { d with isActive := false }
      ∧ (∀ m ∈ (handleUnmatch true true matchId uid r).matchDocs,
          m.id = matchId → m.data.isActive = false)
      ∧ matchId ∉ (handleUnmatch true true matchId uid r).matchesOf uid
      ∧ ∀ v, v ≠ uid → (handleUnmatch true true matchId uid r).getUser v = r.getUser v := by
  have hu1 : ({ r with
      matchDocs := r.matchDocs.map fun m =>
        if m.id = matchId then { m with data := { m.data with isActive := false } }
        else m } : Remote).getUser uid = some u := hu
  have hres : handleUnmatch true true matchId uid r
      = { r with
          users := modifyUser uid
            (fun u => { u with matchIds := arrayRemove matchId u.matchIds }) r.users
          matchDocs := r.matchDocs.map fun m =>
            if m.id = matchId then { m with data := { m.data with isActive := false } }
            else m } := by
    unfold handleUnmatch
    rw [updateMatch_ok matchId _ r d hm]
    simp only [updateUser, hu1, if_true]
  rw [hres]
  refine ⟨getMatch_update matchId (fun d => { d with isActive := false }) r d hm _, ?_, ?_, ?_⟩
  · intro m hmem hid
    simp only [List.mem_map] at hmem
    obtain ⟨m0, _, rfl⟩ := hmem
    by_cases h0 : m0.id = matchId
    · simp [h0]
    · simp only [h0, if_false] at hid
  · have hl : ({ r with
        users := modifyUser uid
          (fun u => { u with matchIds := arrayRemove matchId u.matchIds }) r.users
        matchDocs := r.matchDocs.map fun m =>
          if m.id = matchId then { m with data := { m.data with isActive := false } }
          else m } : Remote).getUser uid
        = some { u with matchIds := arrayRemove matchId u.matchIds } := by
      have := lookup_modify_some uid uid
        (fun u => { u with matchIds := arrayRemove matchId u.matchIds }) r.users u hu
      simpa using this
    simp only [Remote.matchesOf, hl]
    exact not_mem_arrayRemove matchId u.matchIds
  · intro v hv
    simp only [Remote.getUser]
    rw [lookup_modifyUser, if_neg hv]

/-- C19 (amended) at users 1 and 2 sharing match 0. -/
theorem C19_unmatch_updates_own_side_only_witness :
    (handleUnmatch true true 0 1 matchedRemote).getMatch 0
        = some { users := [1, 2], createdAt := some 0, expiresAt := 1000, isActive := false }
      ∧ 0 ∉ (handleUnmatch true true 0 1 matchedRemote).matchesOf 1
      ∧ (handleUnmatch true true 0 1 matchedRemote).getUser 2 = matchedRemote.getUser 2 :=
  have h := C19_unmatch_updates_own_side_only 0 1 matchedRemote
    { users := [1, 2], createdAt := some 0, expiresAt := 1000, isActive := true }
    { matchIds := some [0] } (by decide) (by decide)
  ⟨h.1, h.2.2.1, h.2.2.2 2 (by decide)⟩

theorem handleBlock_ok (serverNow : Nat) (uid target : UserId) (r : Remote) (u : UserData)
    (hu : r.getUser uid = some u) :
    handleBlock {} serverNow uid target r
      = { r with
          users := modifyUser uid
            (fun u => { u with blockedUsers := arrayUnion target u.blockedUsers }) r.users
          matchDocs := r.matchDocs.map fun m =>
            if sharedBy uid target m then
              { m with data := { m.data with isActive := false, blockedAt := some serverNow } }
            else m } := by
  simp [handleBlock, updateUser, hu]

/-- C20: after the user `uid` confirms blocking `target`, every request succeeding, the
target is in `blockedUsers` of `uid`; the matches collection holds the same documents with
the same users, every one whose users contain both `uid` and `target` has
`isActive = false`, and every one that does not contain both is unchanged. -/
theorem C20_block_deactivates_shared_matches (serverNow : Nat) (uid target : UserId)
    (r : Remote) (u : UserData) (hu : r.getUser uid = some u) :
    target ∈ (((handleBlock {} serverNow uid target r).getUser uid).bind
        fun u => u.blockedUsers).getD []
      ∧ ((handleBlock {} serverNow uid target r).matchDocs.map fun m => (m.id, m.data.users))
        = (r.matchDocs.map fun m => (m.id, m.data.users))
      ∧ (∀ m ∈ (handleBlock {} serverNow uid target r).matchDocs,
          uid ∈ m.data.users → target ∈ m.data.users → m.data.isActive = false)
      ∧ ∀ (i : Nat) (m : MatchDoc), r.matchDocs.get? i = some m →
          ¬ (uid ∈ m.data.users ∧ target ∈ m.data.users) →
          (handleBlock {} serverNow uid target r).matchDocs.get? i = some m := by
  rw [handleBlock_ok serverNow uid target r u hu]
  refine ⟨?_, ?_, ?_, ?_⟩
  · have hl := lookup_modify_some uid uid
      (fun u => { u with blockedUsers := arrayUnion target u.blockedUsers }) r.users u hu
    simp only [if_true] at hl
    simp only [Remote.getUser, hl, Option.some_bind]
    exact mem_arrayUnion_self target u.blockedUsers
  · simp only [List.map_map]
    apply List.map_congr_left
    intro m _
    simp only [Function.comp]
    split_ifs <;> rfl
  · intro m hmem h1 h2
    simp only [List.mem_map] at hmem
    obtain ⟨m0, _, rfl⟩ := hmem
    by_cases hs : sharedBy uid target m0 = true
    · simp [hs]
    · have hs2 : sharedBy uid target m0 = false := by simpa using hs
      simp only [hs2, Bool.false_eq_true, if_false] at h1 h2
      exact absurd (by simp [sharedBy, h1, h2]) hs
  · intro i m hi hn
    have hs : sharedBy uid target m = false := by
      simp only [sharedBy, Bool.and_eq_false_imp, decide_eq_true_eq, decide_eq_false_iff_not]
      intro h1 h2
      exact hn ⟨h1, h2⟩
    simp only [List.get?_eq_getElem?, List.getElem?_map] at hi ⊢
    simp [hi, hs]

/-- C20 at users 1 and 2 sharing match 0. -/
theorem C20_block_deactivates_shared_matches_witness :
    2 ∈ (((handleBlock {} 9 1 2 matchedRemote).getUser 1).bind fun u => u.blockedUsers).getD []
      ∧ ∀ m ∈ (handleBlock {} 9 1 2 matchedRemote).matchDocs,
          1 ∈ m.data.users → 2 ∈ m.data.users → m.data.isActive = false :=
  have h := C20_block_deactivates_shared_matches 9 1 2 matchedRemote { matchIds := some [0] }
    (by decide)
  ⟨h.1, h.2.2.1⟩

/-! ## The claims on inactive matches, passes and missing users -/

theorem KeepsInactive.refl (r : Remote) : KeepsInactive r r :=
  fun _ m h => ⟨m, h, rfl, id⟩

theorem KeepsInactive.trans {r r1 r2 : Remote} (h1 : KeepsInactive r r1)
    (h2 : KeepsInactive r1 r2) : KeepsInactive r r2 := by
  intro i m hm
  obtain ⟨m1, hm1, hid1, ha1⟩ := h1 i m hm
  obtain ⟨m2, hm2, hid2, ha2⟩ := h2 i m1 hm1
  exact ⟨m2, hm2, hid2.trans hid1, fun h => ha2 (ha1 h)⟩

theorem KeepsInactive.of_eq {r r1 : Remote} (h : r1.matchDocs = r.matchDocs) :
    KeepsInactive r r1 := by
  intro i m hm
  exact ⟨m, by rw [h]; exact hm, rfl, id⟩

theorem KeepsInactive.of_append {r r1 : Remote} (x : MatchDoc)
    (h : r1.matchDocs = r.matchDocs ++ [x]) : KeepsInactive r r1 := by
  intro i m hm
  refine ⟨m, ?_, rfl, id⟩
  rw [h]
  simp only [List.get?_eq_getElem?] at hm ⊢
  have hi : i < r.matchDocs.length := by
    by_contra hc
    rw [List.getElem?_eq_none (by omega)] at hm
    cases hm
  rw [List.getElem?_append_left hi]
  exact hm

theorem KeepsInactive.of_map {r r1 : Remote} (g : MatchDoc → MatchDoc)
    (hid : ∀ m, (g m).id = m.id)
    (hact : ∀ m, m.data.isActive = false → (g m).data.isActive = false)
    (h : r1.matchDocs = r.matchDocs.map g) : KeepsInactive r r1 := by
  intro i m hm
  refine ⟨g m, ?_, hid m, hact m⟩
  rw [h]
  simp only [List.get?_eq_getElem?, List.getElem?_map] at hm ⊢
  rw [hm]
  rfl

theorem updateMatch_keeps (ok : Bool) (matchId : DocId) (f : MatchData → MatchData)
    (hf : ∀ d, d.isActive = false → (f d).isActive = false) (r r1 : Remote)
    (h : updateMatch ok matchId f r = .ok r1) : KeepsInactive r r1 := by
  unfold updateMatch at h
  cases ok with
  | false => simp at h
  | true =>
    cases hg : r.getMatch matchId with
    | none => simp [hg] at h
    | some d =>
      simp only [hg, if_true] at h
      cases h
      refine KeepsInactive.of_map
        (fun m => if m.id = matchId then { m with data := f m.data } else m) ?_ ?_ rfl
      · intro m; dsimp only; split_ifs <;> rfl
      · intro m hm
        dsimp only
        split_ifs
        · exact hf m.data hm
        · exact hm

theorem updateUser_keeps (ok : Bool) (uid : UserId) (f : UserData → UserData) (r r1 : Remote)
    (h : updateUser ok uid f r = .ok r1) : KeepsInactive r r1 :=
  KeepsInactive.of_eq (updateUser_matchDocs ok uid f r r1 h).1

theorem handleSwipe_keeps (net : SwipeNet) (now serverNow : Nat) (d : Direction)
    (s : SwipeScreen) (r : Remote) :
    KeepsInactive r (handleSwipe net now serverNow d s r).2 := by
  rcases handleSwipe_matchDocs net now serverNow d s r with h | ⟨m, h⟩
  · exact KeepsInactive.of_eq h
  · exact KeepsInactive.of_append m h

theorem createMatch_keeps (net : SwipeNet) (now serverNow : Nat) (uid : UserId) (p : Profile)
    (r : Remote) : KeepsInactive r (createMatch net now serverNow uid p r) := by
  rcases createMatch_matchDocs net now serverNow uid p r with h | h
  · exact KeepsInactive.of_eq h
  · exact KeepsInactive.of_append _ h

theorem onSend_keeps (addOk updateOk : Bool) (serverNow : Nat) (message : MessageData)
    (c : ChatScreen) (r : Remote) :
    KeepsInactive r (onSend addOk updateOk serverNow message c r) := by
  unfold onSend
  split_ifs
  · exact KeepsInactive.refl r
  · cases h1 : addMessage addOk (some c.matchId) { message with createdAt := some serverNow } r with
    | error e => exact KeepsInactive.refl r
    | ok r1 =>
      have k1 : KeepsInactive r r1 := by
        unfold addMessage at h1
        cases addOk with
        | false => simp at h1
        | true =>
          simp only [if_true] at h1
          cases h1
          exact KeepsInactive.of_eq rfl
      simp only []
      cases h2 : updateMatch updateOk c.matchId
          (fun d => { d with lastMessage := some message.text,
                             lastMessageAt := some serverNow }) r1 with
      | error e => exact k1
      | ok r2 =>
        exact k1.trans (updateMatch_keeps updateOk c.matchId
          (fun d => { d with lastMessage := some message.text,
                             lastMessageAt := some serverNow }) (fun _ h => h) r1 r2 h2)

theorem handleUnmatch_keeps (matchOk userOk : Bool) (matchId : DocId) (uid : UserId)
    (r : Remote) : KeepsInactive r (handleUnmatch matchOk userOk matchId uid r) := by
  unfold handleUnmatch
  cases h1 : updateMatch matchOk matchId (fun d => { d with isActive := false }) r with
  | error e => exact KeepsInactive.refl r
  | ok r1 =>
    have k1 := updateMatch_keeps matchOk matchId (fun d => { d with isActive := false })
      (fun _ _ => rfl) r r1 h1
    simp only []
    cases h2 : updateUser userOk uid
        (fun u => { u with matchIds := arrayRemove matchId u.matchIds }) r1 with
    | error e => exact k1
    | ok r2 => exact k1.trans (updateUser_keeps _ _ _ r1 r2 h2)

theorem handleBlock_keeps (net : BlockNet) (serverNow : Nat) (uid target : UserId)
    (r : Remote) : KeepsInactive r (handleBlock net serverNow uid target r) := by
  unfold handleBlock
  cases h1 : updateUser net.block uid
      (fun u => { u with blockedUsers := arrayUnion target u.blockedUsers }) r with
  | error e => exact KeepsInactive.refl r
  | ok r1 =>
    have k1 := updateUser_keeps _ _ _ r r1 h1
    simp only []
    split_ifs
    · refine k1.trans (KeepsInactive.of_map
        (fun m => if sharedBy uid target m then
            { m with data := { m.data with isActive := false, blockedAt := some serverNow } }
          else m) ?_ ?_ rfl)
      · intro m; dsimp only; split_ifs <;> rfl
      · intro m hm
        dsimp only
        split_ifs
        · rfl
        · exact hm
    · exact k1

theorem Op.apply_keeps (o : Op) (r : Remote) : KeepsInactive r (o.apply r) := by
  cases o with
  | swipe net now serverNow d s => exact handleSwipe_keeps net now serverNow d s r
  | createMatch net now serverNow uid p => exact createMatch_keeps net now serverNow uid p r
  | send addOk updateOk serverNow message c =>
    exact onSend_keeps addOk updateOk serverNow message c r
  | unmatch matchOk userOk matchId uid => exact handleUnmatch_keeps matchOk userOk matchId uid r
  | block net serverNow uid target => exact handleBlock_keeps net serverNow uid target r

theorem runOps_keeps (ops : List Op) (r : Remote) : KeepsInactive r (runOps ops r) := by
  induction ops generalizing r with
  | nil => exact KeepsInactive.refl r
  | cons o ops ih => exact (Op.apply_keeps o r).trans (ih (o.apply r))

/-- C21: a match document that is inactive stays inactive: after any sequence of swipes,
match creations, messages sent, unmatches and blocks, whatever their requests do, the
document is still at its place in the collection, with the same id and
`isActive = false`. -/
theorem C21_inactive_match_stays_inactive (ops : List Op) (r : Remote) (i : Nat)
    (m : MatchDoc) (hm : r.matchDocs.get? i = some m) (hi : m.data.isActive = false) :
    ∃ m1, (runOps ops r).matchDocs.get? i = some m1 ∧ m1.id = m.id
      ∧ m1.data.isActive = false := by
  obtain ⟨m1, h1, h2, h3⟩ := runOps_keeps ops r i m hm
  exact ⟨m1, h1, h2, h3 hi⟩

/-- C21 after user 1 has unmatched match 0: a later swipe, a message and a block leave the
document inactive. -/
theorem C21_inactive_match_stays_inactive_witness :
    ∃ m1, (runOps [Op.swipe SwipeNet.allOk 5 6 .right screenA,
          Op.send true true 7 ⟨"hi", 1, none⟩ { matchId := 0, uid := 2 },
          Op.block {} 9 2 1] (handleUnmatch true true 0 1 matchedRemote)).matchDocs.get? 0
        = some m1 ∧ m1.id = 0 ∧ m1.data.isActive = false :=
  C21_inactive_match_stays_inactive _ (handleUnmatch true true 0 1 matchedRemote) 0
    ⟨0, { users := [1, 2], createdAt := some 0, expiresAt := 1000, isActive := false }⟩
    (by decide) (by decide)

theorem mem_arrayUnion_iff {α : Type} [DecidableEq α] (x y : α) (o : Option (List α)) :
    y ∈ (arrayUnion x o).getD [] ↔ y ∈ o.getD [] ∨ y = x := by
  cases o with
  | none => simp [arrayUnion]
  | some l =>
    by_cases h : x ∈ l
    · simp only [arrayUnion, h, if_true, Option.getD_some]
      constructor
      · exact Or.inl
      · rintro (h1 | rfl)
        · exact h1
        · exact h
    · simp [arrayUnion, h]

theorem arrayUnion_idem {α : Type} [DecidableEq α] (x : α) (o : Option (List α)) :
    arrayUnion x (arrayUnion x o) = arrayUnion x o := by
  cases o with
  | none => simp [arrayUnion]
  | some l =>
    by_cases h : x ∈ l
    · simp [arrayUnion, h]
    · simp [arrayUnion, h]

theorem swipe_left_eq (net : SwipeNet) (now serverNow : Nat) (uid : UserId) (p : Profile)
    (r : Remote) (ua : UserData) (ha : r.getUser uid = some ua) (hs : net.swiped = true) :
    swipe net now serverNow uid p .left r = recordSwiped uid p.id r := by
  simp [swipe, hs, updateUser, ha, recordSwiped]

theorem getUser_recordSwiped (uid target v : UserId) (r : Remote) :
    (recordSwiped uid target r).getUser v
      = if v = uid then
          (r.getUser v).map fun u => { u with swipedProfiles := arrayUnion target u.swipedProfiles }
        else r.getUser v := by
  unfold recordSwiped
  rw [getUser_modify]

theorem recordSwiped_idem (uid target : UserId) (r : Remote) :
    recordSwiped uid target (recordSwiped uid target r) = recordSwiped uid target r := by
  unfold recordSwiped
  simp only []
  rw [modifyUser_idem]
  intro u
  simp [arrayUnion_idem]

/-- C22: a left swipe by an existing actor, its write succeeding, makes the actor's
`swipedProfiles` the old ids together with the target's id; it changes no
`likedProfiles`, no `matches` array, no other document and no match document; the same
swipe once more leaves the state as it is. -/
theorem C22_pass_only_records_the_swipe (now serverNow now2 serverNow2 : Nat) (s : SwipeScreen)
    (target : Profile) (r : Remote) (ua : UserData)
    (hcur : s.profiles.get? s.currentIndex = some target)
    (ha : r.getUser s.uid = some ua) :
    (∃ ua1, (handleSwipe SwipeNet.allOk now serverNow .left s r).2.getUser s.uid = some ua1
        ∧ (∀ x, x ∈ ua1.swipedProfiles.getD [] ↔ x ∈ ua.swipedProfiles.getD [] ∨ x = target.id)
        ∧ ua1.likedProfiles = ua.likedProfiles ∧ ua1.matchIds = ua.matchIds)
      ∧ (∀ v, v ≠ s.uid →
          (handleSwipe SwipeNet.allOk now serverNow .left s r).2.getUser v = r.getUser v)
      ∧ (handleSwipe SwipeNet.allOk now serverNow .left s r).2.matchDocs = r.matchDocs
      ∧ (handleSwipe SwipeNet.allOk now2 serverNow2 .left s
          (handleSwipe SwipeNet.allOk now serverNow .left s r).2).2
        = (handleSwipe SwipeNet.allOk now serverNow .left s r).2 := by
  have h1 : (handleSwipe SwipeNet.allOk now serverNow .left s r).2
      = recordSwiped s.uid target.id r := by
    rw [handleSwipe_snd _ _ _ _ _ _ _ hcur, swipe_left_eq _ _ _ _ _ _ ua ha rfl]
  obtain ⟨ua2, ha2, -, -⟩ := getUser_recordSwiped_some s.uid target.id s.uid r ua ha
  have h2 : (handleSwipe SwipeNet.allOk now2 serverNow2 .left s
      (recordSwiped s.uid target.id r)).2 = recordSwiped s.uid target.id r := by
    rw [handleSwipe_snd _ _ _ _ _ _ _ hcur, swipe_left_eq _ _ _ _ _ _ ua2 ha2 rfl,
      recordSwiped_idem]
  rw [h1, h2]
  refine ⟨⟨{ ua with swipedProfiles := arrayUnion target.id ua.swipedProfiles }, ?_, ?_, rfl,
    rfl⟩, ?_, rfl, rfl⟩
  · rw [getUser_recordSwiped, if_pos rfl, ha]; rfl
  · intro x
    exact mem_arrayUnion_iff target.id x ua.swipedProfiles
  · intro v hv
    rw [getUser_recordSwiped, if_neg hv]

/-- C22 at user 1 passing on user 2. -/
theorem C22_pass_only_records_the_swipe_witness :
    (handleSwipe SwipeNet.allOk 5 6 .left screenA twoUsers).2.matchDocs = twoUsers.matchDocs
      ∧ (handleSwipe SwipeNet.allOk 7 8 .left screenA
          (handleSwipe SwipeNet.allOk 5 6 .left screenA twoUsers).2).2
        = (handleSwipe SwipeNet.allOk 5 6 .left screenA twoUsers).2 :=
  (C22_pass_only_records_the_swipe 5 6 7 8 screenA ⟨2⟩ twoUsers {} (by decide)
    (by decide)).2.2

theorem handleLikeCall_fst (net : SwipeNet) (now serverNow : Nat) (uid : UserId)
    (p : Profile) (r : Remote) :
    (handleLikeCall net now serverNow uid p r).1 = handleLike net now serverNow uid p r := by
  unfold handleLikeCall handleLikeTry handleLike
  cases readUser net.read p.id r with
  | error e => rfl
  | ok o =>
    cases o with
    | none => rfl
    | some d =>
      simp only []
      split_ifs
      · rfl
      · cases updateUser net.like p.id
          (fun u => { u with likedProfiles := arrayUnion uid u.likedProfiles }) r <;> rfl

theorem handleLikeCall_snd (net : SwipeNet) (now serverNow : Nat) (uid : UserId)
    (p : Profile) (r : Remote) :
    (handleLikeCall net now serverNow uid p r).2 = .ok () := by
  unfold handleLikeCall
  rcases handleLikeTry net now serverNow uid p r with ⟨x | x, r1⟩ <;> rfl

theorem handleLike_missing (net : SwipeNet) (now serverNow : Nat) (uid : UserId)
    (p : Profile) (r : Remote) (h : r.getUser p.id = none) :
    handleLike net now serverNow uid p r = r := by
  unfold handleLike readUser
  cases net.read <;> simp [h]

theorem updateUser_getUser_none (ok : Bool) (uid v : UserId) (f : UserData → UserData)
    (r r1 : Remote) (h : updateUser ok uid f r = .ok r1) (hv : r.getUser v = none) :
    r1.getUser v = none := by
  unfold updateUser at h
  cases ok with
  | false => simp at h
  | true =>
    cases hu : r.getUser uid with
    | none => simp [hu] at h
    | some u =>
      simp only [hu, if_true] at h
      cases h
      rw [getUser_modify, hv]
      simp

/-- C23: when the target has no user document, a right swipe leaves the same remote state
as a left swipe on that target, whatever its requests do: no match document is created
and no `likedProfiles` changes. `handleLike` throws a `TypeError` inside its `try` block
when the read succeeds, and the call completes normally. When the actor has a document
and the first write succeeds, that state is the old one with the target's id added to the
actor's `swipedProfiles`: the array then holds the old ids and the target's id. -/
theorem C23_like_of_missing_user_is_a_pass (net : SwipeNet) (now serverNow : Nat)
    (s : SwipeScreen) (target : Profile) (r : Remote)
    (hcur : s.profiles.get? s.currentIndex = some target)
    (hnone : r.getUser target.id = none) :
    (handleSwipe net now serverNow .right s r).2 = (handleSwipe net now serverNow .left s r).2
      ∧ (handleSwipe net now serverNow .right s r).2.matchDocs = r.matchDocs
      ∧ (∀ v, ((handleSwipe net now serverNow .right s r).2.getUser v).map
            (fun u => u.likedProfiles) = (r.getUser v).map fun u => u.likedProfiles)
      ∧ (handleLikeTry { net with read := true } now serverNow s.uid target r).1
          = .error .typeError
      ∧ (handleLikeCall net now serverNow s.uid target r).2 = .ok ()
      ∧ (handleLikeCall net now serverNow s.uid target r).1
          = handleLike net now serverNow s.uid target r
      ∧ (∀ ua, r.getUser s.uid = some ua → net.swiped = true →
          (handleSwipe net now serverNow .right s r).2 = recordSwiped s.uid target.id r
            ∧ (handleSwipe net now serverNow .right s r).2.getUser s.uid
              = some { ua with swipedProfiles := arrayUnion target.id ua.swipedProfiles }
            ∧ target.id ∈ (arrayUnion target.id ua.swipedProfiles).getD []
            ∧ ∀ x, x ∈ (arrayUnion target.id ua.swipedProfiles).getD []
                ↔ x ∈ ua.swipedProfiles.getD [] ∨ x = target.id) := by
  have heq : (handleSwipe net now serverNow .right s r).2
      = (handleSwipe net now serverNow .left s r).2 := by
    rw [handleSwipe_snd _ _ _ _ _ _ _ hcur, handleSwipe_snd _ _ _ _ _ _ _ hcur]
    unfold swipe
    cases h : updateUser net.swiped s.uid
        (fun u => { u with swipedProfiles := arrayUnion target.id u.swipedProfiles }) r with
    | error e => rfl
    | ok r1 =>
      simp only []
      exact handleLike_missing net now serverNow s.uid target r1
        (updateUser_getUser_none _ _ _ _ r r1 h hnone)
  have hleft : (handleSwipe net now serverNow .left s r).2 = r
      ∨ (handleSwipe net now serverNow .left s r).2 = recordSwiped s.uid target.id r := by
    rw [handleSwipe_snd _ _ _ _ _ _ _ hcur]
    unfold swipe updateUser
    cases net.swiped with
    | false => left; rfl
    | true =>
      cases hu : r.getUser s.uid with
      | none => left; simp
      | some u => right; simp [recordSwiped]
  refine ⟨heq, ?_, ?_, ?_, handleLikeCall_snd _ _ _ _ _ _, handleLikeCall_fst _ _ _ _ _ _, ?_⟩
  · rw [heq]
    rcases hleft with h | h <;> rw [h]
    rfl
  · intro v
    rw [heq]
    rcases hleft with h | h <;> rw [h]
    exact getUser_recordSwiped_liked s.uid target.id v r
  · simp [handleLikeTry, readUser, hnone]
  · intro ua ha hs
    have hrec : (handleSwipe net now serverNow .right s r).2
        = recordSwiped s.uid target.id r := by
      rw [heq, handleSwipe_snd _ _ _ _ _ _ _ hcur, swipe_left_eq _ _ _ _ _ _ ua ha hs]
    refine ⟨hrec, ?_, mem_arrayUnion_self target.id ua.swipedProfiles,
      fun x => mem_arrayUnion_iff target.id x ua.swipedProfiles⟩
    rw [hrec, getUser_recordSwiped, if_pos rfl, ha]
    rfl

/-- C23 at user 1 swiping right on user 3, who has no document: the state is that of the
left swipe, no match document is added, and 3 is in `swipedProfiles` of user 1. -/
theorem C23_like_of_missing_user_is_a_pass_witness :
    (handleSwipe SwipeNet.allOk 5 6 .right ⟨1, [⟨3⟩], 0⟩ twoUsers).2
        = (handleSwipe SwipeNet.allOk 5 6 .left ⟨1, [⟨3⟩], 0⟩ twoUsers).2
      ∧ (handleSwipe SwipeNet.allOk 5 6 .right ⟨1, [⟨3⟩], 0⟩ twoUsers).2.matchDocs
        = twoUsers.matchDocs
      ∧ (handleSwipe SwipeNet.allOk 5 6 .right ⟨1, [⟨3⟩], 0⟩ twoUsers).2.getUser 1
        = some { swipedProfiles := some [3] }
      ∧ (3 : UserId) ∈ (arrayUnion 3 (none : Option (List UserId))).getD [] :=
  have h := C23_like_of_missing_user_is_a_pass SwipeNet.allOk 5 6 ⟨1, [⟨3⟩], 0⟩ ⟨3⟩ twoUsers
    (by decide) (by decide)
  ⟨h.1, h.2.1, (h.2.2.2.2.2.2 {} (by decide) rfl).2.1, (h.2.2.2.2.2.2 {} (by decide) rfl).2.2.1⟩

/-! ## The claims on startup, deferred updates, the cache and retries -/

/-- C24 (evaluation): `OfflineService` has no method `loadErrorLogs`, so the first
statement of `initializeServices` throws and `syncOfflineData` is never called at
startup, online or not: the persisted queue and the remote state are left as they were. -/
theorem C24_startup_never_syncs (s : OfflineService) (sn : StorageNet) (net : Nat → Bool)
    (analytics cleanup : Except JsError Unit) (st : Option Stored) (r : Remote) :
    initializeServices s sn net analytics cleanup st r = ⟨false, st, r⟩
      ∧ (initializeServices { isOnline := true } {} (fun _ => true) (.ok ()) (.ok ())
          (some (.array [.action (sendMessageAction 0 ⟨"hi", 1, none⟩)])) matchedRemote).remote
        = matchedRemote := by
  have h : ("loadErrorLogs" ∈ offlineServiceMethods) = False := by
    simp [offlineServiceMethods]
  constructor
  · unfold initializeServices
    simp only [h, if_false]
  · unfold initializeServices
    simp only [h, if_false]

theorem executeAction_fallback (ok : Bool) (collection : String) (docId : Nat)
    (data : UserData) (actionType : ActionType) (now : Nat) (r : Remote) :
    tryExecute ok (.action (stamp now (fallbackAction collection docId data actionType))) r
      = r := by
  cases actionType <;> rfl

/-- C25 (evaluation): an update deferred by `updateWithOfflineFallback` while offline is
saved as `{type, collection, docId, data}`; `executeAction` reads `userId` (or
`messageData`, `matchData`, `reportData`), which the saved object does not have, so the
later sync changes nothing remote and clears the queue, whatever the action type. Applied
directly, the same update of user 1 changes the document. -/
theorem C25_deferred_update_is_lost (ok : Bool) (now : Nat) (collection : String)
    (docId : Nat) (data : UserData) (actionType : ActionType) (net : Nat → Bool)
    (r : Remote) :
    (updateWithOfflineFallback false ok {} now collection docId data actionType none r).1
        = some (.array [.action (stamp now (fallbackAction collection docId data actionType))])
      ∧ syncPendingActions {} net
          (updateWithOfflineFallback false ok {} now collection docId data actionType none r).1
          r = (none, r)
      ∧ syncPendingActions {} (fun _ => true)
          (updateWithOfflineFallback false true {} 5 "users" 1 { isActive := some true }
            .update_profile none twoUsers).1 twoUsers = (none, twoUsers)
      ∧ updateDoc true "users" 1 { isActive := some true } twoUsers
          = .ok { users := [(1, { isActive := some true }), (2, {})] } := by
  have hsave : (updateWithOfflineFallback false ok {} now collection docId data actionType
      none r).1
      = some (.array [.action (stamp now (fallbackAction collection docId data actionType))]) :=
    rfl
  refine ⟨hsave, ?_, by decide, by rfl⟩
  rw [hsave]
  simp only [syncPendingActions, if_true, runEntries, executeAction_fallback]

/-- C26 (evaluation): user 1 has blocked user 2 and not swiped them; `loadProfiles` for
user 1 still lists the profile of user 2, since it filters on `swipedProfiles` only. -/
theorem C26_blocked_profile_is_still_loaded :
    (blockedRemote.getUser 1).map (fun u => u.blockedUsers) = some (some [2])
      ∧ loadProfiles true true 1 blockedRemote = some [⟨2⟩] := by
  decide

/-- C27: with working storage, `cleanupOldOfflineData` at the instant `now` stores exactly
the entries with `now - timestamp <= 604,800,000`, each unchanged and in order; an entry
exactly seven days old is kept; a second cleanup at the same instant changes nothing. -/
theorem C27_cleanup_keeps_seven_days (now : Nat) (l : List (String × CacheEntry))
    (key : String) (d : CacheValue) (t : Nat) :
    cleanupOldOfflineData {} now (some (.map l))
        = some (.map (l.filter fun e =>
            decide ((now : Int) - (e.2.timestamp : Int) ≤ 604800000)))
      ∧ cleanupOldOfflineData {} (t + 604800000) (some (.map [(key, ⟨d, t⟩)]))
        = some (.map [(key, ⟨d, t⟩)])
      ∧ cleanupOldOfflineData {} (t + 604800001) (some (.map [(key, ⟨d, t⟩)]))
        = some (.map [])
      ∧ cleanupOldOfflineData {} now (cleanupOldOfflineData {} now (some (.map l)))
        = cleanupOldOfflineData {} now (some (.map l)) := by
  have hp : ∀ (n : Nat), (fun e : String × CacheEntry =>
      !decide ((n : Int) - (e.2.timestamp : Int) > (maxAge : Int)))
      = fun e => decide ((n : Int) - (e.2.timestamp : Int) ≤ 604800000) := by
    intro n
    funext e
    have hm : (maxAge : Int) = 604800000 := by simp [maxAge]
    rw [hm]
    by_cases h : (n : Int) - (e.2.timestamp : Int) ≤ 604800000
    · simp [h]
    · simp [h]; omega
  have hc : ∀ (n : Nat) (l2 : List (String × CacheEntry)),
      cleanupOldOfflineData {} n (some (.map l2))
        = some (.map (l2.filter fun e =>
            decide ((n : Int) - (e.2.timestamp : Int) ≤ 604800000))) := by
    intro n l2
    simp only [cleanupOldOfflineData, if_true, hp]
  refine ⟨hc now l, ?_, ?_, ?_⟩
  · rw [hc]
    have h1 : (((t + 604800000 : Nat) : Int)) - (t : Int) ≤ 604800000 := by push_cast; omega
    simp only [List.filter_cons, h1, decide_True, if_true, List.filter_nil]
  · rw [hc]
    have h2 : ¬ ((((t + 604800001 : Nat) : Int)) - (t : Int) ≤ 604800000) := by
      push_cast; omega
    simp only [List.filter_cons, h2, decide_False, List.filter_nil]
    rfl
  · rw [hc, hc, List.filter_filter]
    simp

theorem retryLoop_attempts_le {ε α : Type} (operation : Nat → Except ε α) (maxRetries : Int)
    (delay : Nat) :
    ∀ (n i : Nat) (lastError : Option ε) (waits : List Nat),
      (retryLoop operation maxRetries delay n i lastError waits).attempts ≤ i + n := by
  intro n
  induction n with
  | zero => intro i lastError waits; simp [retryLoop]
  | succ n ih =>
    intro i lastError waits
    unfold retryLoop
    cases operation i with
    | ok v => simp only []; omega
    | error e =>
      simp only []
      have := ih (i + 1) (some e)
        (if (i : Int) < maxRetries - 1 then waits ++ [delay * 2 ^ i] else waits)
      omega

theorem retryLoop_success {ε α : Type} (operation : Nat → Except ε α) (maxRetries : Int)
    (delay k : Nat) (v : α) (hk : operation k = .ok v) :
    ∀ (n i : Nat) (lastError : Option ε) (waits : List Nat), i + n = maxRetries.toNat →
      i ≤ k → k < i + n → (∀ j, i ≤ j → j < k → ∃ e, operation j = .error e) →
      (retryLoop operation maxRetries delay n i lastError waits).result = .ok v
        ∧ (retryLoop operation maxRetries delay n i lastError waits).attempts = k + 1
        ∧ (retryLoop operation maxRetries delay n i lastError waits).waits
          = waits ++ (List.range' i (k - i)).map fun j => delay * 2 ^ j := by
  intro n
  induction n with
  | zero => intro i lastError waits _ h1 h2; omega
  | succ n ih =>
    intro i lastError waits hin hik hkn hfail
    unfold retryLoop
    by_cases hi : i = k
    · subst hi
      rw [hk]
      simp
    · obtain ⟨e, he⟩ := hfail i (le_refl i) (by omega)
      rw [he]
      simp only []
      have hM : maxRetries = ((i + (n + 1) : Nat) : Int) := by
        rw [hin]; exact (Int.toNat_of_nonneg (by omega)).symm
      have hc : (i : Int) < maxRetries - 1 := by rw [hM]; push_cast; omega
      rw [if_pos hc]
      obtain ⟨h1, h2, h3⟩ := ih (i + 1) (some e) (waits ++ [delay * 2 ^ i]) (by omega)
        (by omega) (by omega) (fun j hj1 hj2 => hfail j (by omega) hj2)
      refine ⟨h1, h2, ?_⟩
      rw [h3]
      obtain ⟨m, hm⟩ : ∃ m, k - i = m + 1 := ⟨k - i - 1, by omega⟩
      have hm2 : k - (i + 1) = m := by omega
      rw [hm, hm2, List.range'_succ]
      simp

theorem retryLoop_exhausted {ε α : Type} (operation : Nat → Except ε α) (maxRetries : Int)
    (delay : Nat) :
    ∀ (n i : Nat) (lastError : Option ε) (waits : List Nat), i + n = maxRetries.toNat →
      (∀ j, i ≤ j → j < i + n → ∃ e, operation j = .error e) →
      (retryLoop operation maxRetries delay n i lastError waits).attempts = i + n
        ∧ (retryLoop operation maxRetries delay n i lastError waits).waits
          = waits ++ ((List.range' i (n - 1)).map fun j => delay * 2 ^ j)
        ∧ (n = 0 → (retryLoop operation maxRetries delay n i lastError waits).result
            = .error lastError)
        ∧ ∀ e, 0 < n → operation (i + n - 1) = .error e →
            (retryLoop operation maxRetries delay n i lastError waits).result
              = .error (some e) := by
  intro n
  induction n with
  | zero =>
    intro i lastError waits _ _
    exact ⟨rfl, by simp [retryLoop], fun _ => rfl, fun e h => absurd h (by omega)⟩
  | succ n ih =>
    intro i lastError waits hin hfail
    unfold retryLoop
    obtain ⟨e0, he0⟩ := hfail i (le_refl i) (by omega)
    rw [he0]
    simp only []
    have hM : maxRetries = ((i + (n + 1) : Nat) : Int) := by
      rw [hin]; exact (Int.toNat_of_nonneg (by omega)).symm
    by_cases hn : n = 0
    · subst hn
      have hc : ¬ ((i : Int) < maxRetries - 1) := by rw [hM]; push_cast; omega
      rw [if_neg hc]
      refine ⟨rfl, by simp [retryLoop], fun h => absurd h (by omega), ?_⟩
      intro e _ he
      have h1 : i + (0 + 1) - 1 = i := by omega
      rw [h1, he0] at he
      cases he
      rfl
    · have hc : (i : Int) < maxRetries - 1 := by rw [hM]; push_cast; omega
      rw [if_pos hc]
      obtain ⟨h1, h2, -, h4⟩ := ih (i + 1) (some e0) (waits ++ [delay * 2 ^ i]) (by omega)
        (fun j hj1 hj2 => hfail j (by omega) (by omega))
      refine ⟨by rw [h1]; omega, ?_, fun h => absurd h (by omega), ?_⟩
      · rw [h2]
        obtain ⟨m, rfl⟩ : ∃ m, n = m + 1 := ⟨n - 1, by omega⟩
        simp [List.range'_succ]
      · intro e _ he
        have h5 : i + 1 + n - 1 = i + (n + 1) - 1 := by omega
        exact h4 e (by omega) (by rw [h5]; exact he)

/-- C28: `retryOperation` calls the operation at most `maxRetries` times; it stops at the
first success and returns its value, having waited `delay * 2 ^ i` after each earlier
failure `i`; when all `maxRetries >= 1` attempts fail it throws the error of the last one
after exactly `maxRetries - 1` waits `delay * 2 ^ i`; for `maxRetries <= 0` the operation
is not called and the call throws (`undefined`). -/
theorem C28_retry_contract {ε α : Type} (operation : Nat → Except ε α) (maxRetries : Int)
    (delay : Nat) :
    (retryOperation operation maxRetries delay).attempts ≤ maxRetries.toNat
      ∧ (∀ (k : Nat) (v : α), (k : Int) < maxRetries → operation k = .ok v →
          (∀ j, j < k → ∃ e, operation j = .error e) →
          (retryOperation operation maxRetries delay).result = .ok v
            ∧ (retryOperation operation maxRetries delay).attempts = k + 1
            ∧ (retryOperation operation maxRetries delay).waits
              = (List.range k).map fun i => delay * 2 ^ i)
      ∧ (∀ e : ε, 1 ≤ maxRetries →
          (∀ j : Nat, (j : Int) < maxRetries → ∃ e1, operation j = .error e1) →
          operation (maxRetries.toNat - 1) = .error e →
          (retryOperation operation maxRetries delay).result = .error (some e)
            ∧ (retryOperation operation maxRetries delay).attempts = maxRetries.toNat
            ∧ (retryOperation operation maxRetries delay).waits
              = (List.range (maxRetries.toNat - 1)).map fun i => delay * 2 ^ i)
      ∧ (maxRetries ≤ 0 →
          (retryOperation operation maxRetries delay).attempts = 0
            ∧ (retryOperation operation maxRetries delay).waits = []
            ∧ (retryOperation operation maxRetries delay).result = .error none) := by
  refine ⟨?_, ?_, ?_, ?_⟩
  · have := retryLoop_attempts_le operation maxRetries delay maxRetries.toNat 0 none []
    unfold retryOperation
    omega
  · intro k v hk hok hfail
    have hk2 : k < 0 + maxRetries.toNat := by omega
    obtain ⟨h1, h2, h3⟩ := retryLoop_success operation maxRetries delay k v hok
      maxRetries.toNat 0 none [] (by omega) (Nat.zero_le k) hk2
      (fun j _ hj => hfail j hj)
    unfold retryOperation
    refine ⟨h1, h2, ?_⟩
    rw [h3]
    simp [List.range_eq_range']
  · intro e hM hfail hlast
    obtain ⟨h1, h2, -, h4⟩ := retryLoop_exhausted operation maxRetries delay
      maxRetries.toNat 0 none [] (by omega) (fun j _ hj => hfail j (by omega))
    unfold retryOperation
    refine ⟨h4 e (by omega) (by simpa using hlast), by omega, ?_⟩
    rw [h2]
    simp [List.range_eq_range']
  · intro hM
    have h0 : maxRetries.toNat = 0 := by omega
    unfold retryOperation
    rw [h0]
    exact ⟨rfl, rfl, rfl⟩

/-- C28 at an operation failing twice and then returning 7, at one failing always, and at
`maxRetries = 0`. -/
theorem C28_retry_contract_witness :
    ((retryOperation (fun i => if i < 2 then Except.error i else Except.ok 7) 3 1000).result
          = .ok 7
        ∧ (retryOperation (fun i => if i < 2 then Except.error i else Except.ok 7) 3
            1000).attempts = 2 + 1
        ∧ (retryOperation (fun i => if i < 2 then Except.error i else Except.ok 7) 3
            1000).waits = (List.range 2).map fun i => 1000 * 2 ^ i)
      ∧ ((retryOperation (fun i => (Except.error i : Except Nat Nat)) 3 1000).result
          = .error (some 2)
        ∧ (retryOperation (fun i => (Except.error i : Except Nat Nat)) 3 1000).attempts
          = (3 : Int).toNat
        ∧ (retryOperation (fun i => (Except.error i : Except Nat Nat)) 3 1000).waits
          = (List.range ((3 : Int).toNat - 1)).map fun i => 1000 * 2 ^ i)
      ∧ ((retryOperation (fun i => (Except.error i : Except Nat Nat)) 0 1000).attempts = 0
        ∧ (retryOperation (fun i => (Except.error i : Except Nat Nat)) 0 1000).waits = []
        ∧ (retryOperation (fun i => (Except.error i : Except Nat Nat)) 0 1000).result
          = .error none) :=
  ⟨(C28_retry_contract (fun i => if i < 2 then Except.error i else Except.ok 7) 3 1000).2.1
      2 7 (by decide) rfl (fun j hj => ⟨j, by simp [hj]⟩),
    (C28_retry_contract (fun i => (Except.error i : Except Nat Nat)) 3 1000).2.2.1
      2 (by decide) (fun j _ => ⟨j, rfl⟩) rfl,
    (C28_retry_contract (fun i => (Except.error i : Except Nat Nat)) 0 1000).2.2.2
      (by decide)⟩

/-- C29 (counterexample): the value `0` saved under a key is read back as `null`. -/
theorem C29_counterexample :
    ¬ (getOfflineData {} "views" (saveOfflineData {} 5 "views" (.num 0) none) = .num 0) := by
  decide

theorem lookup_setKey (key k2 : String) (entry : CacheEntry) (l : List (String × CacheEntry)) :
    (setKey key entry l).lookup k2 = if k2 = key then some entry else l.lookup k2 := by
  induction l with
  | nil =>
    by_cases h : k2 = key
    · simp [setKey, List.lookup, h]
    · have hb : (k2 == key) = false := by simpa using h
      simp [setKey, List.lookup, h, hb]
  | cons a l ih =>
    obtain ⟨k, v⟩ := a
    by_cases hk : k = key
    · subst hk
      by_cases h : k2 = k
      · simp [setKey, List.lookup, h]
      · have hb : (k2 == k) = false := by simpa using h
        simp [setKey, List.lookup, h, hb]
    · by_cases h2 : k2 = k
      · subst h2
        simp [setKey, List.lookup, hk]
      · have hb : (k2 == k) = false := by simpa using h2
        simp [setKey, List.lookup, hk, hb, ih]

theorem saveOfflineData_entries (now : Nat) (key : String) (d : CacheValue)
    (st : Option OfflineStored) (hkey : key ≠ "__proto__")
    (hst : st = none ∨ st = some .empty ∨ ∃ l, st = some (.map l)) :
    saveOfflineData {} now key d st = some (.map (setKey key ⟨d, now⟩ (entriesOf st))) := by
  rcases hst with rfl | rfl | ⟨l, rfl⟩ <;>
    simp [saveOfflineData, saveOfflineDataTry, assignEntry, hkey, entriesOf]

theorem saveOfflineData_array (now : Nat) (key : String) (d : CacheValue)
    (elems : List ArrayElem) (hkey : arrayIndex key = none) :
    saveOfflineData {} now key d (some (.array elems)) = some (.array elems) := by
  by_cases hl : key = "length"
  · simp [saveOfflineData, saveOfflineDataTry, assignEntry, hl]
  · simp [saveOfflineData, saveOfflineDataTry, assignEntry, hl, hkey]

/-- C29 (amended): with working storage, `offline_data` absent, empty or holding a JSON
object of cache entries, and a key other than `__proto__`, `getOfflineData(k)` after
`saveOfflineData(k, d)` returns `d` when `d` is truthy and `null` when `d` is `0`, `false`,
the empty string or `null`; the entries under every other key are unchanged by the save.
Outside that domain the save stores nothing under the key and the read returns `null`:
for the key `__proto__`, for stored text that is not JSON, for a stored JSON `null`,
boolean, number or string, and for a stored JSON array with a key that is not an array
index. -/
theorem C29_cache_returns_truthy_values (now : Nat) (key : String) (d : CacheValue)
    (st : Option OfflineStored) (elems : List ArrayElem) (hkey : key ≠ "__proto__")
    (hst : st = none ∨ st = some .empty ∨ ∃ l, st = some (.map l)) :
    getOfflineData {} key (saveOfflineData {} now key d st)
        = (if d.truthy then d else .null)
      ∧ (∀ k2, k2 ≠ key →
          (entriesOf (saveOfflineData {} now key d st)).lookup k2 = (entriesOf st).lookup k2)
      ∧ saveOfflineData {} now "__proto__" d st = some (.map (entriesOf st))
      ∧ (saveOfflineData {} now key d (some .invalid) = some .invalid
          ∧ getOfflineData {} key (some .invalid) = .null)
      ∧ (saveOfflineData {} now key d (some .primitive) = some .primitive
          ∧ getOfflineData {} key (some .primitive) = .null)
      ∧ (arrayIndex key = none →
          saveOfflineData {} now key d (some (.array elems)) = some (.array elems)
            ∧ getOfflineData {} key (some (.array elems)) = .null) := by
  refine ⟨?_, ?_, ?_, ⟨rfl, rfl⟩, ⟨rfl, rfl⟩, ?_⟩
  · rw [saveOfflineData_entries now key d st hkey hst]
    simp only [getOfflineData, if_true, lookup_setKey]
  · intro k2 hk2
    rw [saveOfflineData_entries now key d st hkey hst]
    simp only [entriesOf, lookup_setKey, if_neg hk2]
  · rcases hst with rfl | rfl | ⟨l, rfl⟩ <;>
      simp [saveOfflineData, saveOfflineDataTry, assignEntry, entriesOf]
  · intro hk
    refine ⟨saveOfflineData_array now key d elems hk, ?_⟩
    simp [getOfflineData, hk]

/-- C29 (amended) at a text saved into an empty cache, at the value `0`, and at a text
saved while `offline_data` holds a JSON array. -/
theorem C29_cache_returns_truthy_values_witness :
    getOfflineData {} "name" (saveOfflineData {} 5 "name" (.str "Ada") none) = .str "Ada"
      ∧ getOfflineData {} "views" (saveOfflineData {} 5 "views" (.num 0) none) = .null
      ∧ (saveOfflineData {} 5 "name" (.str "Ada") (some (.array [])) = some (.array [])
          ∧ getOfflineData {} "name" (some (.array [])) = .null) :=
  ⟨(C29_cache_returns_truthy_values 5 "name" (.str "Ada") none [] (by decide)
      (Or.inl rfl)).1,
    (C29_cache_returns_truthy_values 5 "views" (.num 0) none [] (by decide) (Or.inl rfl)).1,
    (C29_cache_returns_truthy_values 5 "name" (.str "Ada") none [] (by decide)
      (Or.inl rfl)).2.2.2.2.2 (by decide)⟩

/-- C30 (evaluation at the failing input): at the instant `now = expiresAt` the list shows
`Expired` while `handleMatchPress` opens the chat; at every other instant the two checks
agree. -/
theorem C30_checks_differ_at_expiry (expiresAt now : Nat) :
    formatTimeRemaining 1000 1000 = "Expired" ∧ handleMatchPress 1000 1000 = true
      ∧ (now = expiresAt
          ∨ (handleMatchPress expiresAt now = false
              ↔ formatTimeRemaining expiresAt now = "Expired")) := by
  refine ⟨by decide, by decide, ?_⟩
  by_cases h : now = expiresAt
  · exact Or.inl h
  · right
    rw [formatTimeRemaining_expired]
    unfold handleMatchPress
    by_cases h2 : now > expiresAt
    · simp only [h2, if_true, true_iff]; omega
    · simp only [h2, if_false]
      constructor
      · intro hc; cases hc
      · intro hc; omega

end BrandModel
